import Mathlib

/-!
A shallow embedding of the actor-style orchestration core of the
`tutor-chat-spark` repository: the persistent-store helpers of
`BaseAgent`, the six role agents (`SessionAgent`, `ProblemAgent`,
`EvaluationAgent`, `HintAgent`, `StudyPlanAgent`, `HistoryAgent`) and the
`AgentManager` dispatcher, together with theorems about the message
protocol they implement.

Host APIs are modelled explicitly:
* `uuidv4()` is an opaque fresh-string supply driven by a counter;
* `Date.now()` is the `now` field of the ambient environment;
* `Math.random()` is a stream of natural-number draws;
* IndexedDB is a schema-less keyed store of named collections (key path
  `id`); a single `dbFail` flag models failure of `indexedDB.open`
  (every store helper of `BaseAgent` rejects exactly when opening fails).

JavaScript string falsiness (`undefined` and `""` are falsy) is modelled
on `Option String`.
-/

set_option linter.unusedVariables false

namespace TutorSpark

/-- Truthiness of an optional JS string: `undefined` and `""` are falsy. -/
def strFalsy : Option String → Bool
  | none => true
  | some s => s = ""

/-- The JS idiom `s || d` for an optional string `s`. -/
def jsOr : Option String → String → String
  | none, d => d
  | some s, d => if s = "" then d else s

/-- Model of `uuidv4()`: the `n`-th identifier of an opaque fresh-string
supply. -/
def uuidGen (n : Nat) : String := "uuid-" ++ toString n

/-- Ambient host state threaded through every handler: the uuid counter,
the clock (`Date.now()`), the `Math.random()` stream with its cursor, and
the IndexedDB failure flag. -/
structure Env where
  counter : Nat
  now : Nat
  randSeq : Nat → Nat
  randIdx : Nat
  dbFail : Bool

/-- Draw the next value of the `uuidv4()` supply. -/
def Env.fresh (e : Env) : String × Env :=
  (uuidGen e.counter, { e with counter := e.counter + 1 })

/-- The JS idiom `s || uuidv4()`: the supply is consulted only when `s`
is falsy (`||` short-circuits). -/
def jsOrFresh (s : Option String) (e : Env) : String × Env :=
  if strFalsy s then e.fresh else (jsOr s "", e)

/-- Model of `Math.floor(Math.random() * n)`: the next stream value
reduced modulo `n`. -/
def Env.draw (e : Env) (n : Nat) : Nat × Env :=
  (e.randSeq e.randIdx % n, { e with randIdx := e.randIdx + 1 })

/-! ### String-keyed association lists

Used both for the JS `Map` of the dispatcher and for the keyed object
stores of IndexedDB. -/

/-- Look a key up in a string-keyed association list. -/
def alookup (k : String) : List (String × β) → Option β
  | [] => none
  | (k0, v) :: rest => if k0 = k then some v else alookup k rest

/-- Insert or overwrite a binding (the semantics of `Map#set` and of
`IDBObjectStore#put`). -/
def aset (k : String) (v : β) : List (String × β) → List (String × β)
  | [] => [(k, v)]
  | (k0, v0) :: rest => if k0 = k then (k, v) :: rest else (k0, v0) :: aset k v rest

/-- Remove a binding (the semantics of `Map#delete` and of
`IDBObjectStore#delete`). -/
def aerase (k : String) (l : List (String × β)) : List (String × β) :=
  l.filter (fun p => p.1 ≠ k)

/-! ### The persistent store (`BaseAgent` IndexedDB helpers) -/

/-- An IndexedDB record: the stored object together with its `id`
property, which the key path `id` uses as the key.  Objects handed to
`persistToIndexedDB` may lack the property (`id : none`). -/
structure Entity (α : Type) where
  id : Option String
  val : α
deriving DecidableEq

/-- One object store: key ↦ record, in insertion order. -/
abbrev Coll (α : Type) := List (String × Entity α)

/-- The `AgentDatabase` restricted to record type `α`: named object
stores, created lazily on first use. -/
abbrev Store (α : Type) := List (String × Coll α)

/-- Reading a collection creates it transparently when absent
(`onupgradeneeded` + `createObjectStore`). -/
def getColl (st : Store α) (name : String) : Coll α :=
  (alookup name st).getD []

/-- Write a collection back. -/
def setColl (st : Store α) (name : String) (c : Coll α) : Store α :=
  aset name c st

/-- `BaseAgent.persistToIndexedDB`: upsert by `data.id`, drawing a fresh
uuid when the object has no (truthy) id; rejects when the database fails
to open. -/
def persistToIndexedDB (e : Env) (st : Store α) (name : String) (data : Entity α) :
    Except String (Store α × Env) :=
  if e.dbFail then .error "Failed to open IndexedDB"
  else
    .ok (setColl st name
          (aset (jsOrFresh data.id e).1
            { data with id := some (jsOrFresh data.id e).1 } (getColl st name)),
        (jsOrFresh data.id e).2)

/-- `BaseAgent.retrieveFromIndexedDB`: get by key, `none` when the key is
absent (`getRequest.result` is `undefined`). -/
def retrieveFromIndexedDB (e : Env) (st : Store α) (name : String) (k : String) :
    Except String (Option (Entity α)) :=
  if e.dbFail then .error "Failed to open IndexedDB"
  else .ok (alookup k (getColl st name))

/-- `BaseAgent.retrieveAllFromIndexedDB`: every record of the collection. -/
def retrieveAllFromIndexedDB (e : Env) (st : Store α) (name : String) :
    Except String (List (Entity α)) :=
  if e.dbFail then .error "Failed to open IndexedDB"
  else .ok ((getColl st name).map (·.2))

/-- `BaseAgent.deleteFromIndexedDB`: remove the record stored under `k`. -/
def deleteFromIndexedDB (e : Env) (st : Store α) (name : String) (k : String) :
    Except String (Store α) :=
  if e.dbFail then .error "Failed to open IndexedDB"
  else .ok (setColl st name (aerase k (getColl st name)))

/-! ### Domain records (`src/agents/types.ts`) -/

/-- `SessionContext`. -/
structure SessionContext where
  userId : String
  experienceLevel : String
  targetAreas : List String
  sessionStartTime : Nat
  lastActive : Nat
deriving DecidableEq

/-- An entry of a session's `messages` array. -/
structure ChatMessage where
  id : String
  role : String
  content : String
  timestamp : Nat
deriving DecidableEq

/-- A record of the `sessions` collection (minus its `id`, held by the
`Entity` wrapper).  `endTime` is only present once the session ended. -/
structure SessionData where
  context : SessionContext
  startTime : Nat
  lastActive : Nat
  isActive : Bool
  messages : List ChatMessage
  endTime : Option Nat
deriving DecidableEq

/-- An entry of a problem's `examples` array. -/
structure ProbExample where
  input : String
  output : String
  explanation : Option String
deriving DecidableEq

/-- `CodingProblem` (minus its `id`, held by the `Entity` wrapper). -/
structure ProblemData where
  title : String
  description : String
  difficulty : String
  category : List String
  inputFormat : String
  outputFormat : String
  constraints : List String
  examples : List ProbExample
  timeComplexity : String
  spaceComplexity : String
  tags : Option (List String)
deriving DecidableEq

/-- The `timeComplexity`/`spaceComplexity` part of a `CodeEvaluation`.
Scores are JS numbers, modelled as rationals. -/
structure ComplexityEval where
  actual : String
  expected : String
  score : ℚ
deriving DecidableEq

/-- The `edgeCases` part of a `CodeEvaluation`. -/
structure EdgeCasesEval where
  covered : List String
  missed : List String
  score : ℚ
deriving DecidableEq

/-- The `codeQuality` part of a `CodeEvaluation`. -/
structure CodeQualityEval where
  readability : ℚ
  maintainability : ℚ
  bestPractices : ℚ
deriving DecidableEq

/-- `CodeEvaluation`. -/
structure CodeEvaluation where
  correctness : ℚ
  timeComplexity : ComplexityEval
  spaceComplexity : ComplexityEval
  edgeCases : EdgeCasesEval
  codeQuality : CodeQualityEval
  overallScore : ℚ
  feedback : String
  suggestions : List String
deriving DecidableEq

/-- `Hint`. -/
structure Hint where
  id : String
  text : String
  level : Nat
  relatedConcept : String
  codeSnippet : String
deriving DecidableEq

/-- A record of the `hints` collection (minus its `id`). -/
structure HintRecData where
  problemId : String
  userId : String
  sessionId : String
  hint : Hint
  timestamp : Nat
deriving DecidableEq

/-- A record of the `evaluations` collection (minus its `id`). -/
structure EvalRecData where
  userId : String
  sessionId : String
  problemId : String
  code : String
  language : String
  evaluation : CodeEvaluation
  timestamp : Nat
deriving DecidableEq

/-- `PerformanceMetric`. -/
structure PerformanceMetric where
  category : String
  score : ℚ
  problemsSolved : Nat
  averageTime : ℚ
  commonMistakes : List String
  strengths : List String
  weaknesses : List String
deriving DecidableEq

/-- An entry of a recommendation's `resources` array. -/
structure PlanResource where
  title : String
  type : String
  url : Option String
  description : String
deriving DecidableEq

/-- An entry of a study plan's `recommendations` array (`priority` is a
JS number computed by integer arithmetic, modelled as an integer). -/
structure Recommendation where
  category : String
  resources : List PlanResource
  priority : ℤ
deriving DecidableEq

/-- An entry of a study plan's `milestones` array. -/
structure Milestone where
  title : String
  description : String
  targetDate : Nat
  completed : Bool
deriving DecidableEq

/-- `StudyPlan` (a record of the `study_plans` collection).  Note: the
interface has no `id` field, so `persistToIndexedDB` always generates a
fresh key for it.  `lastUpdated` is added by the `update` handler. -/
structure StudyPlanData where
  userId : String
  createdAt : Nat
  metrics : List PerformanceMetric
  recommendations : List Recommendation
  milestones : List Milestone
  lastUpdated : Option Nat
deriving DecidableEq

/-- An entry of a session history's `problems` array. -/
structure HistProblem where
  problemId : String
  startTime : Nat
  endTime : Nat
  attempts : Nat
  evaluation : Option CodeEvaluation
deriving DecidableEq

/-- The `metrics` part of a `SessionHistory`. -/
structure HistMetrics where
  problemsSolved : Nat
  averageScore : ℚ
  timeSpent : Nat
  improvementAreas : List String
deriving DecidableEq

/-- `SessionHistory` (a record of the `session_history` collection; the
interface has no `id` field). `metrics` is optional: `analyzeSessionHistory`
guards every access to it. -/
structure SessionHistoryData where
  sessionId : String
  userId : String
  startTime : Nat
  endTime : Nat
  problems : List HistProblem
  metrics : Option HistMetrics
deriving DecidableEq

/-- A record of the `problem_usage` collection (minus its `id`). -/
structure UsageData where
  problemId : String
  userId : String
  sessionId : String
  timestamp : Nat
deriving DecidableEq

/-- The `timeRange` filter of a history request; `ending` models the
field `end` (a Lean keyword). -/
structure TimeRange where
  start : Nat
  ending : Nat
deriving DecidableEq

/-- An entry of the `scoreProgression` array of a history analysis. -/
structure ScoreProgressPoint where
  sessionId : String
  date : String
  score : ℚ
deriving DecidableEq

/-- Result object of `HistoryAgent.analyzeSessionHistory`: the
empty-history branch returns only `{totalSessions, message}`; the other
branch returns the full aggregate. -/
inductive HistoryAnalysis where
  | noData (totalSessions : Nat) (message : String)
  | full (totalSessions : Nat) (totalProblems : Nat) (totalTime : Int)
      (averageSessionTime : ℚ) (averageProblemsPerSession : ℚ) (averageScore : ℚ)
      (improvementAreas : List String) (scoreProgression : List ScoreProgressPoint)
      (trend : String) (strengthAreas : List String) (weaknessAreas : List String)
      (recommendations : List String)
deriving DecidableEq

/-- `fetchHistory` resolves with either a single record or an array. -/
inductive HistPayload where
  | one (h : Entity SessionHistoryData)
  | many (hs : List (Entity SessionHistoryData))
deriving DecidableEq

/-! ### The message envelope -/

/-- The untyped `payload` of an `AgentMessage`: one constructor per
object shape that flows through the system.  `error` carries the
`originalMessage` inlined as its three fields. -/
inductive Payload where
  | empty
  | sessionReq (context : Option SessionContext) (sessionId : Option String)
      (message : Option String)
  | sessionInitResp (sessionId : String) (message : String) (context : SessionContext)
  | sessionUpdateResp (sessionId : String) (context : SessionContext)
  | sessionEndResp (sessionId : String) (message : String)
  | sessionPersistResp (sessionId : String) (message : String)
  | problemReq (userId : Option String) (sessionId : Option String)
      (difficulty : Option String) (category : Option (List String))
      (problem : Option (Entity ProblemData))
  | problemResp (problem : Entity ProblemData) (userId : String) (sessionId : String)
  | problemsResp (problems : List (Entity ProblemData)) (userId : String)
      (sessionId : String)
  | evalReq (code : String) (language : String) (problemId : String)
      (userId : String) (sessionId : String) (evaluation : Option CodeEvaluation)
  | evalResp (code : String) (language : String) (problemId : String)
      (userId : String) (sessionId : String) (evaluation : CodeEvaluation)
  | hintReq (code : String) (language : String) (problemId : String)
      (userId : String) (sessionId : String) (hintsProvided : Nat)
      (difficultyLevel : Nat)
  | hintResp (hint : Hint)
  | hintAck (hint : Hint) (acknowledged : Bool)
  | planReq (userId : String) (sessionIds : Option (List String))
      (evaluations : Option (List CodeEvaluation)) (studyPlan : Option StudyPlanData)
  | planMetricsResp (userId : String) (metrics : List PerformanceMetric)
  | planResp (userId : String) (studyPlan : StudyPlanData)
  | histReq (userId : Option String) (sessionId : Option String)
      (timeRange : Option TimeRange) (history : Option HistPayload)
  | histFetchResp (userId : String) (history : HistPayload)
  | histSaveResp (userId : String) (saved : Bool)
  | histAnalyzeResp (userId : String) (history : List (Entity SessionHistoryData))
      (analysis : HistoryAnalysis)
  | error (error : String) (origId : Option String) (origType : Option String)
      (origPayload : Payload)

/-- The wire envelope `AgentMessage`; `id` and `type` are optional so
that messages lacking them at runtime are representable. -/
structure Msg where
  id : Option String
  type : Option String
  payload : Payload

/-- `BaseAgent.createResponse`: a response reuses the request's id. -/
def createResponse (originalMessage : Msg) (type : String) (payload : Payload) : Msg :=
  { id := originalMessage.id, type := some type, payload := payload }

/-- The collections of the shared `AgentDatabase`, each at its record
type.  All six workers open the same database. -/
structure SystemState where
  sessions : Store SessionData
  problems : Store ProblemData
  problemUsage : Store UsageData
  evaluations : Store EvalRecData
  hints : Store HintRecData
  studyPlans : Store StudyPlanData
  sessionHistory : Store SessionHistoryData

/-- The role handler signature: `handleMessage` may read/write the store
and throws by returning `.error`. -/
abbrev HandlerFun := Env → SystemState → Msg → Except String (Msg × SystemState × Env)

/-- `BaseAgent`'s `self.onmessage` wrapper: messages without a truthy
`type` are rejected before role dispatch; a thrown error becomes an
error-typed response keyed by the original id (or a fresh uuid when the
original message had none).  All reachable throw sites precede any store
write, so returning the incoming state on error matches the source. -/
def baseOnMessage (handle : HandlerFun) (e : Env) (s : SystemState) (m : Msg) :
    Msg × SystemState × Env :=
  match (if strFalsy m.type then .error "Invalid message format" else handle e s m :
      Except String (Msg × SystemState × Env)) with
  | .ok r => r
  | .error err =>
    ({ id := some (jsOrFresh m.id e).1, type := some "error",
       payload := .error err m.id m.type m.payload }, s, (jsOrFresh m.id e).2)

/-! ### SessionAgent -/

namespace SessionAgent

/-- `SessionAgent.generateWelcomeMessage`. -/
def generateWelcomeMessage (context : SessionContext) : String :=
  let levelDescription :=
    if context.experienceLevel = "beginner" then "foundational coding skills"
    else if context.experienceLevel = "intermediate" then "intermediate coding skills"
    else if context.experienceLevel = "advanced" then "advanced programming techniques"
    else if context.experienceLevel = "expert" then "expert-level software engineering"
    else ""
  let areasDescription :=
    if context.targetAreas.length ≠ 0 then
      "focusing on " ++ String.intercalate ", " context.targetAreas
    else "covering various industry-standard coding practices"
  "Welcome to your Industry Coding Assessment Prep Session! I\x27ll be your tutor for "
    ++ levelDescription ++ " " ++ areasDescription
    ++ ".\n\nOur sessions will help you prepare for technical assessments with an emphasis on:\n• Algorithmic efficiency\n• Code quality and best practices\n• Edge case handling\n• Problem-solving approaches\n\nWhat area would you like to focus on today?"

/-- `SessionAgent.initializeSession`. -/
def initializeSession (e : Env) (s : SystemState) (m : Msg) :
    Except String (Msg × SystemState × Env) :=
  match m.payload with
  | .sessionReq (some context) _ _ =>
    if context.userId = "" then .error "Session context must include userId"
    else
      let (sessionId, e) := e.fresh
      let welcomeMessage := generateWelcomeMessage context
      let (chatId, e) := e.fresh
      let sessionData : Entity SessionData :=
        { id := some sessionId,
          val := { context := context, startTime := e.now, lastActive := e.now,
                   isActive := true,
                   messages := [{ id := chatId, role := "assistant",
                                  content := welcomeMessage, timestamp := e.now }],
                   endTime := none } }
      match persistToIndexedDB e s.sessions "sessions" sessionData with
      | .error err => .error err
      | .ok (sessions, e) =>
        .ok (createResponse m "init" (.sessionInitResp sessionId welcomeMessage context),
             { s with sessions := sessions }, e)
  | _ => .error "Session context must include userId"

/-- `SessionAgent.updateSession`. -/
def updateSession (e : Env) (s : SystemState) (m : Msg) :
    Except String (Msg × SystemState × Env) :=
  match m.payload with
  | .sessionReq context (some sessionId) _ =>
    if sessionId = "" then .error "Session ID is required for updates"
    else match retrieveFromIndexedDB e s.sessions "sessions" sessionId with
    | .error err => .error err
    | .ok none => .error ("Session not found: " ++ sessionId)
    | .ok (some session) =>
      let updatedSession : Entity SessionData :=
        { session with val := { session.val with
            context := context.getD session.val.context,
            lastActive := e.now } }
      match persistToIndexedDB e s.sessions "sessions" updatedSession with
      | .error err => .error err
      | .ok (sessions, e) =>
        .ok (createResponse m "update"
              (.sessionUpdateResp sessionId updatedSession.val.context),
             { s with sessions := sessions }, e)
  | _ => .error "Session ID is required for updates"

/-- `SessionAgent.endSession`. -/
def endSession (e : Env) (s : SystemState) (m : Msg) :
    Except String (Msg × SystemState × Env) :=
  match m.payload with
  | .sessionReq _ (some sessionId) _ =>
    if sessionId = "" then .error "Session ID is required to end session"
    else match retrieveFromIndexedDB e s.sessions "sessions" sessionId with
    | .error err => .error err
    | .ok none => .error ("Session not found: " ++ sessionId)
    | .ok (some session) =>
      let endedSession : Entity SessionData :=
        { session with val := { session.val with
            isActive := false, endTime := some e.now } }
      match persistToIndexedDB e s.sessions "sessions" endedSession with
      | .error err => .error err
      | .ok (sessions, e) =>
        .ok (createResponse m "end"
              (.sessionEndResp sessionId
                "Your tutoring session has ended. Thank you for practicing with the Industry Coding Tutor!"),
             { s with sessions := sessions }, e)
  | _ => .error "Session ID is required to end session"

/-- `SessionAgent.persistSession`. -/
def persistSession (e : Env) (s : SystemState) (m : Msg) :
    Except String (Msg × SystemState × Env) :=
  match m.payload with
  | .sessionReq _ (some sessionId) (some messageContent) =>
    if sessionId = "" ∨ messageContent = "" then
      .error "Session ID and message content are required"
    else match retrieveFromIndexedDB e s.sessions "sessions" sessionId with
    | .error err => .error err
    | .ok none => .error ("Session not found: " ++ sessionId)
    | .ok (some session) =>
      let (chatId, e) := e.fresh
      let updatedSession : Entity SessionData :=
        { session with val := { session.val with
            lastActive := e.now,
            messages := session.val.messages ++
              [{ id := chatId, role := "assistant", content := messageContent,
                 timestamp := e.now }] } }
      match persistToIndexedDB e s.sessions "sessions" updatedSession with
      | .error err => .error err
      | .ok (sessions, e) =>
        .ok (createResponse m "persist"
              (.sessionPersistResp sessionId messageContent),
             { s with sessions := sessions }, e)
  | _ => .error "Session ID and message content are required"

/-- `SessionAgent.handleMessage`. -/
def handleMessage : HandlerFun := fun e s m =>
  match m.type with
  | some "init" => initializeSession e s m
  | some "update" => updateSession e s m
  | some "end" => endSession e s m
  | some "persist" => persistSession e s m
  | t => .error ("Unknown message type: " ++ t.getD "undefined")

end SessionAgent

/-! ### HistoryAgent -/

/-- Model of `new Date(t).toISOString().split('T')[0]`: an injective
rendering of the timestamp.  The bucketing of distinct timestamps into
one calendar day is not modelled; no property proved here depends on it. -/
def isoDate (t : Nat) : String := "date-" ++ toString t

namespace HistoryAgent

/-- JS `Array#sort` with comparator `(a, b) => b.startTime - a.startTime`:
a stable sort, descending by `startTime`. -/
def sortByStartTimeDesc (l : List (Entity SessionHistoryData)) :
    List (Entity SessionHistoryData) :=
  l.mergeSort (fun a b => decide (b.val.startTime ≤ a.val.startTime))

/-- `HistoryAgent.fetchHistory`.  The whole store read is wrapped in
`try/catch`: on failure the handler logs and keeps the empty list.  The
response carries a single record exactly when the filtered list has
length one and a `sessionId` was given. -/
def fetchHistory (e : Env) (s : SystemState) (m : Msg) :
    Except String (Msg × SystemState × Env) :=
  match m.payload with
  | .histReq userId sessionId timeRange _ =>
    if strFalsy userId then .error "User ID is required to fetch history"
    else
      let uid := jsOr userId ""
      let history : List (Entity SessionHistoryData) :=
        match retrieveAllFromIndexedDB e s.sessionHistory "session_history" with
        | .error _ => []
        | .ok allHistory =>
          let h1 := allHistory.filter (fun h => decide (h.val.userId = uid))
          let h2 := if strFalsy sessionId then h1
            else h1.filter (fun h => decide (h.val.sessionId = jsOr sessionId ""))
          let h3 := match timeRange with
            | some tr => h2.filter (fun h => decide (tr.start ≤ h.val.startTime) &&
                (decide (h.val.endTime ≤ tr.ending) || decide (h.val.endTime = 0)))
            | none => h2
          sortByStartTimeDesc h3
      let histPayload : HistPayload :=
        if strFalsy sessionId then .many history
        else match history with
          | [h] => .one h
          | hs => .many hs
      .ok (createResponse m "fetch" (.histFetchResp uid histPayload), s, e)
  | _ => .error "User ID is required to fetch history"

/-- Persist each entry of an array of history records, in order. -/
def persistList (e : Env) (st : Store SessionHistoryData) :
    List (Entity SessionHistoryData) → Except String (Store SessionHistoryData × Env)
  | [] => .ok (st, e)
  | item :: rest =>
    match persistToIndexedDB e st "session_history" item with
    | .error err => .error err
    | .ok (st2, e2) => persistList e2 st2 rest

/-- `HistoryAgent.saveHistory`: accepts a single record or an array; a
store failure is caught and rethrown wrapped in `Failed to save
history:`. -/
def saveHistory (e : Env) (s : SystemState) (m : Msg) :
    Except String (Msg × SystemState × Env) :=
  match m.payload with
  | .histReq userId _ _ (some history) =>
    if strFalsy userId then .error "User ID and history are required to save history"
    else
      let uid := jsOr userId ""
      match (match history with
        | .many items => persistList e s.sessionHistory items
        | .one item => persistToIndexedDB e s.sessionHistory "session_history" item) with
      | .error err => .error ("Failed to save history: Error: " ++ err)
      | .ok (hist, e) =>
        .ok (createResponse m "save" (.histSaveResp uid true),
             { s with sessionHistory := hist }, e)
  | _ => .error "User ID and history are required to save history"

/-- `HistoryAgent.calculateAverage`. -/
def calculateAverage (values : List ℚ) : ℚ :=
  if values.length = 0 then 0 else values.sum / values.length

/-- Recommendation strings appended per weakness area in
`analyzeSessionHistory`. -/
def areaRecommendation (area : String) : List String :=
  if area = "Algorithm Efficiency" then
    ["Focus on understanding time complexity and practicing algorithm optimization techniques."]
  else if area = "Memory Optimization" then
    ["Study space complexity analysis and practice in-place algorithms and memory-efficient data structures."]
  else if area = "Edge Case Handling" then
    ["Develop a systematic approach to identifying and handling edge cases in your code."]
  else if area = "Code Readability" then
    ["Improve variable naming, add comments, and focus on consistent code formatting."]
  else if area = "Code Maintainability" then
    ["Practice breaking down complex functions into smaller, more maintainable pieces."]
  else if area = "Best Practices" then
    ["Study and apply industry best practices for the languages you\x27re working with."]
  else []

/-- `HistoryAgent.analyzeSessionHistory`. -/
def analyzeSessionHistory (history : List (Entity SessionHistoryData)) :
    HistoryAnalysis :=
  if history.length = 0 then
    .noData 0 "No session history available for analysis."
  else
    let totalSessions := history.length
    let totalProblems := (history.map (fun s => s.val.problems.length)).sum
    let totalTime := (history.map (fun s => (s.val.endTime : ℤ) - s.val.startTime)).sum
    let averageSessionTime := (totalTime : ℚ) / totalSessions
    let averageProblemsPerSession := (totalProblems : ℚ) / totalSessions
    let allScores := (history.map (fun s =>
      s.val.problems.filterMap (fun p => p.evaluation.map (·.overallScore)))).flatten
    let averageScore := if allScores.length > 0 then allScores.sum / allScores.length else 0
    let areaCounts := history.foldl (fun acc s =>
      match s.val.metrics with
      | some ms => ms.improvementAreas.foldl
          (fun acc area => aset area ((alookup area acc).getD 0 + 1) acc) acc
      | none => acc) ([] : List (String × Nat))
    let sortedAreas := (areaCounts.mergeSort (fun a b => decide (b.2 ≤ a.2))).map (·.1)
    let chronological := history.mergeSort
      (fun a b => decide (a.val.startTime ≤ b.val.startTime))
    let scoreProgression := chronological.filterMap (fun s =>
      s.val.metrics.map (fun ms =>
        ({ sessionId := s.val.sessionId, date := isoDate s.val.startTime,
           score := ms.averageScore } : ScoreProgressPoint)))
    let trend :=
      if scoreProgression.length ≥ 2 then
        let firstScore := ((scoreProgression.head?).map (·.score)).getD 0
        let lastScore := ((scoreProgression.getLast?).map (·.score)).getD 0
        if lastScore > firstScore * (11 / 10 : ℚ) then "Improving"
        else if lastScore < firstScore * (9 / 10 : ℚ) then "Declining"
        else "Neutral"
      else "Neutral"
    let allEvaluations := (history.map (fun s =>
      s.val.problems.filterMap (·.evaluation))).flatten
    let avgTimeComplexity := calculateAverage (allEvaluations.map (·.timeComplexity.score))
    let avgSpaceComplexity := calculateAverage (allEvaluations.map (·.spaceComplexity.score))
    let avgEdgeCases := calculateAverage (allEvaluations.map (·.edgeCases.score))
    let avgReadability := calculateAverage (allEvaluations.map (·.codeQuality.readability))
    let avgMaintainability := calculateAverage (allEvaluations.map (·.codeQuality.maintainability))
    let avgBestPractices := calculateAverage (allEvaluations.map (·.codeQuality.bestPractices))
    let strengthAreas :=
      (if avgTimeComplexity > 80 then ["Algorithm Efficiency"] else []) ++
      (if avgSpaceComplexity > 80 then ["Memory Optimization"] else []) ++
      (if avgEdgeCases > 80 then ["Edge Case Handling"] else []) ++
      (if avgReadability > 80 then ["Code Readability"] else []) ++
      (if avgMaintainability > 80 then ["Code Maintainability"] else []) ++
      (if avgBestPractices > 80 then ["Best Practices"] else [])
    let weaknessAreas :=
      (if avgTimeComplexity < 60 then ["Algorithm Efficiency"] else []) ++
      (if avgSpaceComplexity < 60 then ["Memory Optimization"] else []) ++
      (if avgEdgeCases < 60 then ["Edge Case Handling"] else []) ++
      (if avgReadability < 60 then ["Code Readability"] else []) ++
      (if avgMaintainability < 60 then ["Code Maintainability"] else []) ++
      (if avgBestPractices < 60 then ["Best Practices"] else [])
    let recommendations := (weaknessAreas.map areaRecommendation).flatten
    let recommendations :=
      if recommendations.length = 0 ∧ weaknessAreas.length = 0 then
        recommendations ++
          ["Continue practicing to maintain and improve your already solid skills."]
      else recommendations
    let recommendations :=
      if totalSessions < 5 then
        recommendations ++
          ["Complete more practice sessions to get a more accurate assessment of your skills."]
      else recommendations
    .full totalSessions totalProblems totalTime averageSessionTime
      averageProblemsPerSession averageScore (sortedAreas.take 3) scoreProgression
      trend strengthAreas weaknessAreas recommendations

/-- `HistoryAgent.analyzeHistory`: fetches (re-entering `fetchHistory`
with a `fetch`-typed copy of the message) and analyzes. -/
def analyzeHistory (e : Env) (s : SystemState) (m : Msg) :
    Except String (Msg × SystemState × Env) :=
  match m.payload with
  | .histReq userId _ timeRange _ =>
    if strFalsy userId then .error "User ID is required to analyze history"
    else
      let uid := jsOr userId ""
      match fetchHistory e s
          { m with type := some "fetch", payload := .histReq userId none timeRange none } with
      | .error err => .error err
      | .ok (fetchMsg, s, e) =>
        let history : List (Entity SessionHistoryData) :=
          match fetchMsg.payload with
          | .histFetchResp _ (.many hs) => hs
          | .histFetchResp _ (.one h) => [h]
          | _ => []
        .ok (createResponse m "analyze"
              (.histAnalyzeResp uid history (analyzeSessionHistory history)), s, e)
  | _ => .error "User ID is required to analyze history"

/-- `HistoryAgent.handleMessage`. -/
def handleMessage : HandlerFun := fun e s m =>
  match m.type with
  | some "fetch" => fetchHistory e s m
  | some "save" => saveHistory e s m
  | some "analyze" => analyzeHistory e s m
  | t => .error ("Unknown message type: " ++ t.getD "undefined")

end HistoryAgent

/-! ### String scanning: models of the JS string/regex operations used by
the hint and evaluation agents -/

/-- JS `String#includes`: some suffix of `s` starts with `pat`. -/
def jsIncludes (s pat : String) : Bool :=
  s.toList.tails.any (fun t => pat.toList.isPrefixOf t)

/-- At least two (possibly overlapping) occurrences of `pat` in `s`:
models both `s.includes(pat) && s.includes(pat, s.indexOf(pat) + 1)` and
`s.lastIndexOf(pat) !== s.indexOf(pat)`. -/
def jsTwoOccurrences (s pat : String) : Bool :=
  2 ≤ (s.toList.tails.filter (fun t => pat.toList.isPrefixOf t)).length

/-- JS `\w`: `[A-Za-z0-9_]`. -/
def isWordChar (c : Char) : Bool := c.isAlphanum || c = '_'

/-- Consume one expected character. -/
def eatChar (c : Char) : List Char → Option (List Char)
  | x :: rest => if x = c then some rest else none
  | [] => none

/-- Consume `\s*`. -/
def eatWs (t : List Char) : List Char := t.dropWhile (·.isWhitespace)

/-- Consume `\s+`. -/
def eatWs1 : List Char → Option (List Char)
  | x :: rest => if x.isWhitespace then some (eatWs rest) else none
  | [] => none

/-- Consume `\w+` (maximal run). -/
def eatWord1 : List Char → Option (List Char)
  | x :: rest => if isWordChar x then some (rest.dropWhile isWordChar) else none
  | [] => none

/-- Consume a literal string. -/
def eatStr (pat : String) (t : List Char) : Option (List Char) :=
  if pat.toList.isPrefixOf t then some (t.drop pat.length) else none

/-- Consume `[^stop]*stop`: drop until after the first `stop`. -/
def dropUntilChar (stop : Char) : List Char → Option (List Char)
  | [] => none
  | x :: rest => if x = stop then some rest else dropUntilChar stop rest

/-- Search for `]:` with no intervening newline (the `.*\]:` tail of the
object-index-signature regex; `.` does not match newlines). -/
def seekBracketColon : List Char → Bool
  | ']' :: ':' :: _ => true
  | '\n' :: _ => false
  | _ :: rest => seekBracketColon rest
  | [] => false

/-- Model of the JS regex `/{\s*\[.*\]:/`: a brace, whitespace, `[`,
then `]:` later on the same line. -/
def reObjIndexSig (s : String) : Bool :=
  s.toList.tails.any fun t =>
    match t with
    | '{' :: rest =>
      match rest.dropWhile (·.isWhitespace) with
      | '[' :: rest2 => seekBracketColon rest2
      | _ => false
    | _ => false

/-- Model of the JS regex
`/\w+\s*=\s*\(\s*\w+\s*\+\s*\w+\s*\)\s*\/\s*2/` (a `mid = (a + b) / 2`
style assignment). -/
def reMidAssign (s : String) : Bool :=
  s.toList.tails.any fun t =>
    (do
      let t1 ← eatWord1 t
      let t2 ← eatChar '=' (eatWs t1)
      let t3 ← eatChar '(' (eatWs t2)
      let t4 ← eatWord1 (eatWs t3)
      let t5 ← eatChar '+' (eatWs t4)
      let t6 ← eatWord1 (eatWs t5)
      let t7 ← eatChar ')' (eatWs t6)
      let t8 ← eatChar '/' (eatWs t7)
      let _ ← eatChar '2' (eatWs t8)
      some ()).isSome

/-- Search for U+0001 followed by `(` before the first closing brace
(the `[^}]*\1\(` tail of the recursion-detection regex). -/
def seekCtrlParen : List Char → Bool
  | '\x01' :: '(' :: _ => true
  | '}' :: _ => false
  | _ :: rest => seekCtrlParen rest
  | [] => false

/-- Model of the JS regex `/\w+\([^)]*\)[^{]*\{[^}]*\1\(/`.  The pattern
has no capturing group, so under the Annex-B semantics of JavaScript
regular expressions `\1` is a legacy octal escape matching U+0001; the
pattern therefore requires that control character inside the braces and
never matches realistic code. -/
def reSelfCall (s : String) : Bool :=
  s.toList.tails.any fun t =>
    (match eatWord1 t with
     | none => false
     | some t1 =>
       match eatChar '(' t1 with
       | none => false
       | some t2 =>
         match dropUntilChar ')' t2 with
         | none => false
         | some t3 =>
           match dropUntilChar '{' t3 with
           | none => false
           | some t4 => seekCtrlParen t4)

/-- One match attempt of `/(?:let|var|const)\s+(\w+)/` at the head of
`t`: the captured name and the remainder after the match. -/
def varDeclAt (t : List Char) : Option (String × List Char) :=
  let kw : Option (List Char) :=
    if ("let".toList).isPrefixOf t then some (t.drop 3)
    else if ("var".toList).isPrefixOf t then some (t.drop 3)
    else if ("const".toList).isPrefixOf t then some (t.drop 5)
    else none
  match kw with
  | none => none
  | some t2 =>
    match eatWs1 t2 with
    | none => none
    | some t3 =>
      let name := t3.takeWhile isWordChar
      if name.isEmpty then none
      else some (String.mk name, t3.dropWhile isWordChar)

/-- Fuelled driver for the global variable-declaration regex. -/
def varDeclNamesAux : Nat → List Char → List String
  | 0, _ => []
  | _, [] => []
  | Nat.succ fuel, t@(_ :: rest) =>
    match varDeclAt t with
    | some (name, after) => name :: varDeclNamesAux fuel after
    | none => varDeclNamesAux fuel rest

/-- Model of the global JS regex `/(?:let|var|const)\s+(\w+)/g`: the
captured names of the non-overlapping left-to-right matches (the source
keeps the whole match and strips the keyword with `replace`, which
yields exactly the captured name). -/
def varDeclNames (s : String) : List String := varDeclNamesAux s.length s.toList

/-- One match attempt of `/function\s+\w+/` at the head of `t`. -/
def funcDeclAt (t : List Char) : Option (List Char) :=
  if ("function".toList).isPrefixOf t then
    match eatWs1 (t.drop 8) with
    | none => none
    | some t2 =>
      if (t2.takeWhile isWordChar).isEmpty then none
      else some (t2.dropWhile isWordChar)
  else none

/-- Fuelled driver counting `/function\s+\w+/g` matches. -/
def funcDeclCountAux : Nat → List Char → Nat
  | 0, _ => 0
  | _, [] => 0
  | Nat.succ fuel, t@(_ :: rest) =>
    match funcDeclAt t with
    | some after => funcDeclCountAux fuel after + 1
    | none => funcDeclCountAux fuel rest

/-- Model of the global JS regex `/function\s+\w+/g`: the number of
non-overlapping matches. -/
def funcDeclCount (s : String) : Nat := funcDeclCountAux s.length s.toList

/-- Model of the JS regex `/if\s*\([^)]*\)\s*\{\s*return/`. -/
def reIfReturn (s : String) : Bool :=
  s.toList.tails.any fun t =>
    (match eatStr "if" t with
     | none => false
     | some t1 =>
       match eatChar '(' (eatWs t1) with
       | none => false
       | some t2 =>
         match dropUntilChar ')' t2 with
         | none => false
         | some t3 =>
           match eatChar '{' (eatWs t3) with
           | none => false
           | some t4 => (eatStr "return" (eatWs t4)).isSome)

/-! ### HintAgent -/

namespace HintAgent

/-- An entry of the hint analysis' `logicalErrors` array. -/
structure LogicalError where
  location : String
  description : String
  explanation : String
  fixExample : String
deriving DecidableEq

/-- The analysis object built by `HintAgent.analyzeCode`. -/
structure HintCodeAnalysis where
  missingConcepts : List String
  inefficientApproach : Bool
  inefficientReason : String
  inefficientPattern : String
  suggestedDataStructure : String
  missingEdgeCases : List String
  logicalErrors : List LogicalError
deriving DecidableEq

/-- `HintAgent.analyzeCode` (the `language` parameter is unused in the
source as well). -/
def analyzeCode (code : String) (language : String) (problem : Entity ProblemData) :
    HintCodeAnalysis :=
  let tags := problem.val.tags.getD []
  let missingConcepts :=
    (if problem.val.category.contains "arrays" ∧
        ¬ jsIncludes code "[" ∧ ¬ jsIncludes code "]" then ["array"] else []) ++
    (if tags.contains "hash-table" ∧ ¬ jsIncludes code "Map" ∧
        ¬ jsIncludes code "Object" ∧ ¬ jsIncludes code "\x7b\x7d" ∧
        ¬ reObjIndexSig code then ["hash map"] else []) ++
    (if tags.contains "stack" ∧
        ¬ (jsIncludes code ".push" ∧ jsIncludes code ".pop") then ["stack"] else []) ++
    (if tags.contains "queue" ∧
        ¬ (jsIncludes code ".push" ∧ jsIncludes code ".shift") then ["queue"] else [])
  let hasNestedLoops := jsTwoOccurrences code "for"
  let inefficient := hasNestedLoops ∧ problem.val.timeComplexity = "O(n)"
  let missingConcepts := missingConcepts ++
    (if tags.contains "binary-search" ∧ ¬ jsIncludes code "mid" ∧
        ¬ jsIncludes code "middle" ∧ ¬ reMidAssign code then ["binary search"] else [])
  let missingEdgeCases :=
    (if ¬ jsIncludes code "null" ∧ ¬ jsIncludes code "undefined" ∧
        ¬ jsIncludes code "!" ∧ ¬ jsIncludes code "== null" then ["null inputs"] else []) ++
    (if ¬ jsIncludes code "length === 0" ∧ ¬ jsIncludes code "length == 0" ∧
        ¬ jsIncludes code "isEmpty" ∧ ¬ jsIncludes code "empty" then
      ["empty collections"] else [])
  let logicalErrors : List LogicalError :=
    (if jsIncludes code "for" ∧ jsIncludes code "i++" ∧ jsIncludes code "i <" ∧
        ¬ jsIncludes code "i < " ∧ ¬ jsIncludes code "i<=" then
      [{ location := "loop condition", description := "loop boundary condition",
         explanation := "Your loop condition might have an off-by-one error.",
         fixExample := "for (let i = 0; i < array.length; i++) \x7b" }] else []) ++
    (if jsIncludes code "return" ∧ jsIncludes code "for" ∧
        ¬ jsIncludes code "break" ∧ ¬ reIfReturn code then
      [{ location := "return statement", description := "early return without condition",
         explanation := "You might be returning too early, before the loop completes.",
         fixExample := "let result = initialValue;\nfor (let i = 0; i < array.length; i++) \x7b\n  // process data\n\x7d\nreturn result;" }]
     else [])
  { missingConcepts := missingConcepts,
    inefficientApproach := inefficient,
    inefficientReason := if inefficient then "slow" else "",
    inefficientPattern := if inefficient then "nested loops" else "",
    suggestedDataStructure := if inefficient then "hash map" else "",
    missingEdgeCases := missingEdgeCases,
    logicalErrors := logicalErrors }

/-- `HintAgent.getConceptExampleSnippet`. -/
def getConceptExampleSnippet (concept language : String) : String :=
  if concept = "array" then
    if language = "javascript" then
      "const array = [1, 2, 3, 4, 5];\n// Access: array[0] -> 1\n// Length: array.length -> 5"
    else if language = "python" then
      "array = [1, 2, 3, 4, 5]\n# Access: array[0] -> 1\n# Length: len(array) -> 5"
    else "Example not available for this concept and language"
  else if concept = "hash map" then
    if language = "javascript" then
      "const map = new Map();\nmap.set(\"key\", \"value\");\n// Get: map.get(\"key\") -> \"value\"\n// Check: map.has(\"key\") -> true"
    else if language = "python" then
      "map = \x7b\x7d\nmap[\"key\"] = \"value\"\n# Get: map[\"key\"] -> \"value\"\n# Check: \"key\" in map -> True"
    else "Example not available for this concept and language"
  else if concept = "stack" then
    if language = "javascript" then
      "const stack = [];\nstack.push(1);  // Add to top\nstack.push(2);  // Add to top\nconst top = stack.pop();  // Remove from top (returns 2)"
    else if language = "python" then
      "stack = []\nstack.append(1)  # Add to top\nstack.append(2)  # Add to top\ntop = stack.pop()  # Remove from top (returns 2)"
    else "Example not available for this concept and language"
  else if concept = "queue" then
    if language = "javascript" then
      "const queue = [];\nqueue.push(1);  // Add to end\nqueue.push(2);  // Add to end\nconst front = queue.shift();  // Remove from front (returns 1)"
    else if language = "python" then
      "from collections import deque\nqueue = deque()\nqueue.append(1)  # Add to end\nqueue.append(2)  # Add to end\nfront = queue.popleft()  # Remove from front (returns 1)"
    else "Example not available for this concept and language"
  else if concept = "binary search" then
    if language = "javascript" then
      "let left = 0, right = array.length - 1;\nwhile (left <= right) \x7b\n  const mid = Math.floor((left + right) / 2);\n  if (array[mid] === target) return mid;\n  if (array[mid] < target) left = mid + 1;\n  else right = mid - 1;\n\x7d"
    else if language = "python" then
      "left, right = 0, len(array) - 1\nwhile left <= right:\n  mid = (left + right) // 2\n  if array[mid] == target: return mid\n  if array[mid] < target: left = mid + 1\n  else: right = mid - 1"
    else "Example not available for this concept and language"
  else "Example not available for this concept and language"

/-- `HintAgent.getConceptImplementationSnippet` (delegates). -/
def getConceptImplementationSnippet (concept language : String)
    (problem : Entity ProblemData) : String :=
  getConceptExampleSnippet concept language

/-- `HintAgent.getDetailedImplementationSnippet` (delegates). -/
def getDetailedImplementationSnippet (concept language : String)
    (problem : Entity ProblemData) : String :=
  getConceptExampleSnippet concept language

/-- `HintAgent.getDataStructureExampleSnippet` (delegates). -/
def getDataStructureExampleSnippet (dataStructure language : String) : String :=
  getConceptExampleSnippet dataStructure language

/-- `HintAgent.getOptimizationSnippet` (delegates). -/
def getOptimizationSnippet (dataStructure language : String)
    (problem : Entity ProblemData) : String :=
  getConceptExampleSnippet dataStructure language

/-- `HintAgent.getOptimizedImplementationSnippet`. -/
def getOptimizedImplementationSnippet (language : String)
    (problem : Entity ProblemData) : String :=
  if language = "javascript" then
    "function optimizedSolution(input) \x7b\n  // Using a more efficient approach\n  const map = new Map();\n  \n  // Process the input\n  for (let i = 0; i < input.length; i++) \x7b\n    map.set(input[i], i);\n  \x7d\n  \n  // Use the map for O(1) lookups\n  // ...\n  \n  return result;\n\x7d"
  else if language = "python" then
    "def optimized_solution(input):\n  # Using a more efficient approach\n  mapping = \x7b\x7d\n  \n  // Process the input\n  for i, value in enumerate(input):\n    mapping[value] = i\n  \n  // Use the mapping for O(1) lookups\n  // ...\n  \n  return result"
  else "Example not available for this language"

/-- `HintAgent.getEdgeCaseHandlingSnippet`. -/
def getEdgeCaseHandlingSnippet (edgeCase language : String) : String :=
  if edgeCase = "null inputs" then
    if language = "javascript" then
      "if (input === null || input === undefined) \x7b\n  return defaultValue; // Or throw an error\n\x7d"
    else if language = "python" then
      "if input is None:\n  return default_value  # Or raise an exception"
    else "Example not available for this edge case and language"
  else if edgeCase = "empty collections" then
    if language = "javascript" then
      "if (!array || array.length === 0) \x7b\n  return []; // Or appropriate default\n\x7d"
    else if language = "python" then
      "if not array:\n  return []  # Or appropriate default"
    else "Example not available for this edge case and language"
  else "Example not available for this edge case and language"

/-- `HintAgent.getDetailedEdgeCaseSnippet` (delegates). -/
def getDetailedEdgeCaseSnippet (edgeCase language : String)
    (problem : Entity ProblemData) : String :=
  getEdgeCaseHandlingSnippet edgeCase language

/-- `HintAgent.getApproachOutlineSnippet`. -/
def getApproachOutlineSnippet (language : String) (problem : Entity ProblemData) :
    String :=
  if language = "javascript" then
    "// 1. Parse the input\n// 2. Initialize data structures\n// 3. Process each element\n// 4. Calculate the result\n// 5. Handle edge cases\n// 6. Return the answer"
  else if language = "python" then
    "# 1. Parse the input\n# 2. Initialize data structures\n# 3. Process each element\n# 4. Calculate the result\n# 5. Handle edge cases\n# 6. Return the answer"
  else "Approach outline not available for this language"

/-- `HintAgent.getPartialImplementationSnippet`. -/
def getPartialImplementationSnippet (language : String) (problem : Entity ProblemData) :
    String :=
  if language = "javascript" then
    "function solution(input) \x7b\n  // Handle edge cases\n  if (!input || input.length === 0) \x7b\n    return defaultValue;\n  \x7d\n  \n  // Initialize result\n  let result = initialValue;\n  \n  // Process the input\n  for (let i = 0; i < input.length; i++) \x7b\n    // TODO: Implement the core logic\n  \x7d\n  \n  return result;\n\x7d"
  else if language = "python" then
    "def solution(input):\n  # Handle edge cases\n  if not input:\n    return default_value\n  \n  # Initialize result\n  result = initial_value\n  \n  // Process the input\n  for item in input:\n    # TODO: Implement the core logic\n    pass\n  \n  return result"
  else "Implementation example not available for this language"

/-- The `(hintText, relatedConcept, codeSnippet)` selection of
`HintAgent.createHint`: category by priority (missing concept →
inefficiency → missing edge case → logical error → generic), then the
switch on the hint level (no `default`: levels outside 1–5 leave the
text and snippet empty). -/
def hintContent (a : HintCodeAnalysis) (hintLevel : Nat) (language : String)
    (problem : Entity ProblemData) : String × String × String :=
  match a.missingConcepts with
  | concept :: _ =>
    (match hintLevel with
     | 1 => ("Think about how " ++ concept ++ " might be useful for this problem.",
             concept, "")
     | 2 => ("This problem typically requires using " ++ concept ++
             ". Consider how you might apply that.", concept, "")
     | 3 => ("You should implement a " ++ concept ++
             " approach to solve this efficiently.", concept,
             getConceptExampleSnippet concept language)
     | 4 => ("Your solution is missing " ++ concept ++
             ", which is crucial for this problem. Here\x27s how you could start:",
             concept, getConceptImplementationSnippet concept language problem)
     | 5 => ("Let me show you a partial implementation using " ++ concept ++ ":",
             concept, getDetailedImplementationSnippet concept language problem)
     | _ => ("", concept, ""))
  | [] =>
    if a.inefficientApproach then
      (match hintLevel with
       | 1 => ("Consider if there\x27s a more efficient approach to this problem.",
               "optimization", "")
       | 2 => ("Your current approach might be too " ++ a.inefficientReason ++
               ". Think about alternative data structures.", "optimization", "")
       | 3 => ("Try using a " ++ a.suggestedDataStructure ++
               " to improve the efficiency of your solution.", "optimization",
               getDataStructureExampleSnippet a.suggestedDataStructure language)
       | 4 => ("Your solution can be optimized by replacing the " ++
               a.inefficientPattern ++ " with a " ++ a.suggestedDataStructure ++
               " approach:", "optimization",
               getOptimizationSnippet a.suggestedDataStructure language problem)
       | 5 => ("Here\x27s how you can rewrite your solution to be more efficient:",
               "optimization", getOptimizedImplementationSnippet language problem)
       | _ => ("", "optimization", ""))
    else match a.missingEdgeCases with
    | edgeCase :: _ =>
      (match hintLevel with
       | 1 => ("Have you considered all possible edge cases?", "edge case handling", "")
       | 2 => ("Make sure your solution handles " ++ edgeCase ++ " correctly.",
               "edge case handling", "")
       | 3 => ("Your solution needs to handle " ++ edgeCase ++
               ". Think about what should happen in this case.",
               "edge case handling", "")
       | 4 => ("Add a check for " ++ edgeCase ++ " to ensure your solution is robust:",
               "edge case handling", getEdgeCaseHandlingSnippet edgeCase language)
       | 5 => ("Here\x27s how to properly handle " ++ edgeCase ++ " in your solution:",
               "edge case handling", getDetailedEdgeCaseSnippet edgeCase language problem)
       | _ => ("", "edge case handling", ""))
    | [] =>
      match a.logicalErrors with
      | err :: _ =>
        (match hintLevel with
         | 1 => ("There might be a logical issue in your solution. Review your approach.",
                 "logic correction", "")
         | 2 => ("Check your logic around " ++ err.location ++ ".", "logic correction", "")
         | 3 => ("There\x27s a potential issue with " ++ err.description ++
                 ". Think about the expected behavior.", "logic correction", "")
         | 4 => ("The problem is in your " ++ err.location ++
                 ". Here\x27s what\x27s happening:", "logic correction",
                 "// " ++ err.explanation)
         | 5 => ("Here\x27s how to fix the issue in your solution:", "logic correction",
                 err.fixExample)
         | _ => ("", "logic correction", ""))
      | [] =>
        (match hintLevel with
         | 1 => ("Think about the key operations needed to solve this problem.",
                 "general approach", "")
         | 2 => ("For this problem, consider using a " ++
                 ((problem.val.category.head?).getD "undefined") ++ " approach.",
                 "general approach", "")
         | 3 => ("A common pattern for solving this type of problem is to use " ++
                 jsOr ((problem.val.tags.getD []).head?) "iteration" ++ ".",
                 "general approach", "")
         | 4 => ("Here\x27s a general outline of how to approach this problem:",
                 "general approach", getApproachOutlineSnippet language problem)
         | 5 => ("Here\x27s a partial implementation to help you get started:",
                 "general approach", getPartialImplementationSnippet language problem)
         | _ => ("", "general approach", ""))

/-- `HintAgent.createHint`: the level is
`Math.min(difficultyLevel + hintsProvided, 5)` whatever hint category is
selected. -/
def createHint (e : Env) (code language : String) (problem : Entity ProblemData)
    (hintsProvided difficultyLevel : Nat) : Hint × Env :=
  let codeAnalysis := analyzeCode code language problem
  let hintLevel := min (difficultyLevel + hintsProvided) 5
  let content := hintContent codeAnalysis hintLevel language problem
  ({ id := (e.fresh).1, text := content.1, level := hintLevel,
     relatedConcept := content.2.1, codeSnippet := content.2.2 },
   (e.fresh).2)

/-- `HintAgent.getProblemDetails`: `try/catch` turning a store failure
into `null`. -/
def getProblemDetails (e : Env) (s : SystemState) (problemId : String) :
    Option (Entity ProblemData) :=
  match retrieveFromIndexedDB e s.problems "problems" problemId with
  | .error _ => none
  | .ok r => r

/-- `HintAgent.generateHint`. -/
def generateHint (e : Env) (s : SystemState) (m : Msg) :
    Except String (Msg × SystemState × Env) :=
  match m.payload with
  | .hintReq code language problemId userId sessionId hintsProvided difficultyLevel =>
    if code = "" ∨ language = "" ∨ problemId = "" ∨ userId = "" ∨ sessionId = "" then
      .error "All hint parameters are required"
    else
      match getProblemDetails e s problemId with
      | none => .error ("Problem not found: " ++ problemId)
      | some problem =>
        let hintAndEnv := createHint e code language problem hintsProvided difficultyLevel
        let hint := hintAndEnv.1
        let e2 := hintAndEnv.2
        match persistToIndexedDB e2 s.hints "hints"
            ⟨some hint.id,
             { problemId := problemId, userId := userId, sessionId := sessionId,
               hint := hint, timestamp := e2.now }⟩ with
        | .error err => .error err
        | .ok (hints, e3) =>
          .ok (createResponse m "provide" (.hintResp hint),
               { s with hints := hints }, e3)
  | _ => .error "All hint parameters are required"

/-- `HintAgent.storeHint`: acknowledges a hint that was provided. -/
def storeHint (e : Env) (s : SystemState) (m : Msg) :
    Except String (Msg × SystemState × Env) :=
  match m.payload with
  | .hintResp hint =>
    if hint.id = "" then .error "Valid hint is required"
    else .ok (createResponse m "provide" (.hintAck hint true), s, e)
  | _ => .error "Valid hint is required"

/-- `HintAgent.handleMessage`. -/
def handleMessage : HandlerFun := fun e s m =>
  match m.type with
  | some "request" => generateHint e s m
  | some "provide" => storeHint e s m
  | t => .error ("Unknown message type: " ++ t.getD "undefined")

end HintAgent

/-! ### EvaluationAgent -/

/-- Search for `:` before the first closing brace (the `[^}]*:` tail of
the brace-colon regex). -/
def seekColonBeforeBrace : List Char → Bool
  | ':' :: _ => true
  | '}' :: _ => false
  | _ :: rest => seekColonBeforeBrace rest
  | [] => false

/-- Model of the JS regex `/\{[^}]*:/`. -/
def reBraceColon (s : String) : Bool :=
  s.toList.tails.any fun t =>
    match t with
    | '{' :: rest => seekColonBeforeBrace rest
    | _ => false

/-- Keep the first occurrence of each element (`[...new Set(l)]`). -/
def dedupFirst (l : List String) : List String :=
  l.foldl (fun acc x => if acc.contains x then acc else acc ++ [x]) []

/-- JS number rendering inside template strings is modelled by Lean's
rational rendering; no property proved here depends on it. -/
def numStr (q : ℚ) : String := toString q

namespace EvaluationAgent

/-- The analysis object built by `EvaluationAgent.analyzeCode`. -/
structure EvalCodeAnalysis where
  hasLoops : Bool
  hasRecursion : Bool
  hasComments : Bool
  lineCount : Nat
  hasExceptionHandling : Bool
  hasEdgeCaseChecks : Bool
  detectedDataStructures : List String
deriving DecidableEq

/-- `EvaluationAgent.analyzeCode`. -/
def analyzeCode (code language : String) (problem : Entity ProblemData) :
    EvalCodeAnalysis :=
  let detected :=
    (if jsIncludes code "Map" ∨ jsIncludes code "new Map" ∨ reObjIndexSig code then
      ["hash-map"] else []) ++
    (if jsIncludes code "Array" ∨ jsIncludes code "[" ∨ jsIncludes code "]" then
      ["array"] else []) ++
    (if jsIncludes code "class" ∨ jsIncludes code "prototype" then
      ["object-oriented"] else []) ++
    (if jsIncludes code ".push" ∧ jsIncludes code ".pop" then ["stack"] else []) ++
    (if jsIncludes code ".push" ∧ jsIncludes code ".shift" then ["queue"] else []) ++
    (if jsIncludes code "next" ∧ jsIncludes code "prev" then ["linked-list"] else [])
  { hasLoops := jsIncludes code "for" ∨ jsIncludes code "while",
    hasRecursion := jsIncludes code "function" ∧ reSelfCall code,
    hasComments := jsIncludes code "//" ∨ jsIncludes code "/*",
    lineCount := (code.splitOn "\n").length,
    hasExceptionHandling := jsIncludes code "try" ∧ jsIncludes code "catch",
    hasEdgeCaseChecks := jsIncludes code "if" ∧
      (jsIncludes code "null" ∨ jsIncludes code "undefined" ∨
       jsIncludes code "length === 0" ∨ jsIncludes code "length == 0"),
    detectedDataStructures := detected }

/-- The fixed keyword list of `getRelevantKeywords`. -/
def algorithmKeywords : List String :=
  ["sort", "search", "bfs", "dfs", "dynamic", "greedy", "backtrack",
   "recursive", "divide", "conquer", "binary", "tree", "graph", "hash",
   "linked", "stack", "queue", "heap", "trie", "segment", "union"]

/-- The punctuation class removed from the description
(`[.,\/#!$%\^&\*;:{}=\-_`~()]`). -/
def punctChars : List Char :=
  ['.', ',', '/', '#', '!', '$', '%', '^', '&', '*', ';', ':',
   '\x7b', '\x7d', '=', '-', '_', '\x60', '~', '(', ')']

/-- Remove the punctuation characters. -/
def stripPunct (s : String) : String :=
  String.mk (s.toList.filter (fun c => ¬ punctChars.contains c))

/-- `EvaluationAgent.getRelevantKeywords`. -/
def getRelevantKeywords (problem : Entity ProblemData) : List String :=
  let keywords := problem.val.category ++ (problem.val.tags.getD [])
  let descriptionWords :=
    ((stripPunct problem.val.description.toLower).split (·.isWhitespace)).filter
      (fun w => w.length > 4)
  let extra := descriptionWords.filter
    (fun word => algorithmKeywords.any (fun kw => jsIncludes word kw))
  dedupFirst (keywords ++ extra)

/-- `EvaluationAgent.evaluateCorrectness`. -/
def evaluateCorrectness (code : String) (problem : Entity ProblemData) : ℚ :=
  let score : ℚ := 85
  let score := if jsIncludes code "if" ∧ jsIncludes code "else" then score + 5 else score
  let score := if jsIncludes code "try" ∧ jsIncludes code "catch" then score + 5 else score
  let matchCount := ((getRelevantKeywords problem).filter
    (fun keyword => jsIncludes code.toLower keyword.toLower)).length
  let score := score + min ((matchCount : ℚ) * 2) 5
  min score 100

/-- `EvaluationAgent.evaluateTimeComplexity`. -/
def evaluateTimeComplexity (code : String) (problem : Entity ProblemData) :
    ComplexityEval :=
  let expected := problem.val.timeComplexity
  if jsIncludes code "for" ∧ jsIncludes code "for" ∧ jsTwoOccurrences code "for" then
    { actual := "O(n²)", expected := expected,
      score := if expected = "O(n²)" then 100
               else if expected = "O(n log n)" then 70 else 50 }
  else if jsIncludes code "for" ∨ jsIncludes code "while" then
    { actual := "O(n)", expected := expected,
      score := if expected = "O(n)" then 100
               else if expected = "O(n log n)" then 90
               else if expected = "O(1)" then 70 else 80 }
  else if ¬ jsIncludes code "for" ∧ ¬ jsIncludes code "while" ∧ ¬ reSelfCall code then
    { actual := "O(1)", expected := expected,
      score := if expected = "O(1)" then 100 else 80 }
  else if jsIncludes code "sort" then
    { actual := "O(n log n)", expected := expected,
      score := if expected = "O(n log n)" then 100
               else if expected = "O(n)" then 70 else 85 }
  else { actual := "Unknown", expected := expected, score := 70 }

/-- `EvaluationAgent.evaluateSpaceComplexity`. -/
def evaluateSpaceComplexity (code : String) (problem : Entity ProblemData) :
    ComplexityEval :=
  let expected := problem.val.spaceComplexity
  if jsIncludes code "new Array(" ∨ jsIncludes code "Array(" ∨ jsIncludes code "[]" then
    { actual := "O(n)", expected := expected,
      score := if expected = "O(n)" then 100 else 75 }
  else if jsIncludes code "new Map" ∨ jsIncludes code "new Set" ∨ reObjIndexSig code then
    { actual := "O(n)", expected := expected,
      score := if expected = "O(n)" then 100 else 75 }
  else
    { actual := "O(1)", expected := expected,
      score := if expected = "O(1)" then 100 else 70 }

/-- The fixed edge-case list of `evaluateEdgeCases`. -/
def commonEdgeCases : List String :=
  ["empty input", "null input", "invalid input", "boundary values", "very large inputs"]

/-- `EvaluationAgent.evaluateEdgeCases`. -/
def evaluateEdgeCases (code : String) (problem : Entity ProblemData) : EdgeCasesEval :=
  let nullCovered := jsIncludes code "null" ∨ jsIncludes code "undefined" ∨
    jsIncludes code "!" ∨ jsIncludes code "== null"
  let emptyCovered := jsIncludes code "length === 0" ∨ jsIncludes code "length == 0" ∨
    jsIncludes code "isEmpty"
  let invalidCovered := jsIncludes code "typeof" ∨ jsIncludes code "instanceof" ∨
    jsIncludes code "isNaN"
  let boundaryCovered := jsIncludes code "Math.max" ∨ jsIncludes code "Math.min" ∨
    jsIncludes code ">=" ∨ jsIncludes code "<="
  let largeCovered := jsIncludes code "overflow" ∨ jsIncludes code "BigInt" ∨
    jsIncludes code "Number.MAX"
  let covered :=
    (if nullCovered then ["null input"] else []) ++
    (if emptyCovered then ["empty input"] else []) ++
    (if invalidCovered then ["invalid input"] else []) ++
    (if boundaryCovered then ["boundary values"] else []) ++
    (if largeCovered then ["very large inputs"] else [])
  let missed :=
    (if nullCovered then [] else ["null input"]) ++
    (if emptyCovered then [] else ["empty input"]) ++
    (if invalidCovered then [] else ["invalid input"]) ++
    (if boundaryCovered then [] else ["boundary values"]) ++
    (if largeCovered then [] else ["very large inputs"])
  { covered := covered, missed := missed,
    score := ((round ((covered.length : ℚ) / (commonEdgeCases.length : ℚ) * 100) : ℤ) : ℚ) }

/-- `EvaluationAgent.evaluateCodeQuality`. -/
def evaluateCodeQuality (code language : String) : CodeQualityEval :=
  let readability : ℚ := 70
  let readability :=
    if jsIncludes code "//" ∨ jsIncludes code "/*" then readability + 10 else readability
  let names := varDeclNames code
  let longNamed := names.filter (fun n => n.length > 2 ∧
    ¬ (["arr", "obj", "str", "num", "idx", "val"].contains n))
  let readability :=
    if longNamed.length > 0 ∧ (longNamed.length : ℚ) ≥ (names.length : ℚ) / 2 then
      readability + 10 else readability
  let readability :=
    if jsIncludes code "\n  " ∨ jsIncludes code "\n    " then readability + 10
    else readability
  let maintainability : ℚ := 70
  let maintainability :=
    if funcDeclCount code > 1 then maintainability + 15 else maintainability
  let lines := code.splitOn "\n"
  let longLines := lines.filter (fun line => line.length > 100)
  let maintainability :=
    if (longLines.length : ℚ) < (lines.length : ℚ) * (0.1 : ℚ) then maintainability + 15
    else maintainability
  let bestPractices : ℚ := 70
  let bestPractices :=
    if jsIncludes language "javascript" ∧
        (jsIncludes code "const " ∨ jsIncludes code "let ") then
      bestPractices + 10 else bestPractices
  let bestPractices :=
    if jsIncludes code "try" ∧ jsIncludes code "catch" then bestPractices + 10
    else bestPractices
  let bestPractices :=
    if jsIncludes language "javascript" ∧
        (jsIncludes code "..." ∨ jsIncludes code "=>" ∨ reBraceColon code) then
      bestPractices + 10 else bestPractices
  { readability := min readability 100,
    maintainability := min maintainability 100,
    bestPractices := min bestPractices 100 }

/-- `EvaluationAgent.generateFeedback`. -/
def generateFeedback (correctnessScore : ℚ) (timeComplexity : ComplexityEval)
    (spaceComplexity : ComplexityEval) (edgeCases : EdgeCasesEval)
    (codeQuality : CodeQualityEval) (problem : Entity ProblemData) : String :=
  let feedback :=
    if correctnessScore ≥ 90 then
      "Your solution correctly addresses the problem requirements. "
    else if correctnessScore ≥ 70 then
      "Your solution appears to address the core problem, but may have minor issues. "
    else "Your solution may not correctly address all aspects of the problem. "
  let feedback := feedback ++
    (if timeComplexity.score ≥ 90 then
      "Your time complexity (" ++ timeComplexity.actual ++
        ") is optimal for this problem. "
     else if timeComplexity.score ≥ 70 then
      "Your time complexity (" ++ timeComplexity.actual ++
        ") is good, but could be improved toward " ++ timeComplexity.expected ++ ". "
     else
      "Your time complexity (" ++ timeComplexity.actual ++
        ") needs improvement to match the expected " ++ timeComplexity.expected ++ ". ")
  let feedback := feedback ++
    (if spaceComplexity.score ≥ 90 then
      "Your space usage (" ++ spaceComplexity.actual ++ ") is well-optimized. "
     else if spaceComplexity.score ≥ 70 then
      "Your space usage (" ++ spaceComplexity.actual ++
        ") is acceptable but could be improved. "
     else
      "Your space usage could be optimized from " ++ spaceComplexity.actual ++
        " toward " ++ spaceComplexity.expected ++ ". ")
  let feedback := feedback ++
    (if edgeCases.score ≥ 80 then
      "You\x27ve handled most important edge cases well. "
     else if edgeCases.score ≥ 50 then
      "You\x27ve addressed some edge cases, but should also consider: " ++
        String.intercalate ", " edgeCases.missed ++ ". "
     else
      "Your solution needs more edge case handling for: " ++
        String.intercalate ", " edgeCases.missed ++ ". ")
  let averageQuality : ℚ := ((round ((codeQuality.readability +
    codeQuality.maintainability + codeQuality.bestPractices) / 3) : ℤ) : ℚ)
  feedback ++
    (if averageQuality ≥ 85 then
      "Your code demonstrates excellent readability and follows best practices. "
     else if averageQuality ≥ 70 then
      "Your code is reasonably clean but could benefit from some style improvements. "
     else
      "Your code would benefit significantly from improved formatting and adherence to best practices. ")

/-- `EvaluationAgent.generateSuggestions`. -/
def generateSuggestions (analysis : EvalCodeAnalysis) (timeComplexity : ComplexityEval)
    (spaceComplexity : ComplexityEval) (edgeCases : EdgeCasesEval)
    (codeQuality : CodeQualityEval) : List String :=
  (if timeComplexity.score < 90 then
    (if timeComplexity.actual = "O(n²)" ∧ timeComplexity.expected = "O(n log n)" then
      ["Consider using a more efficient sorting algorithm or hash-based approach to improve time complexity from O(n²) to O(n log n)."]
     else if timeComplexity.actual = "O(n)" ∧ timeComplexity.expected = "O(1)" then
      ["Look for constant-time solutions, possibly using mathematical formulas or hash maps for lookups instead of iteration."]
     else if timeComplexity.actual = "O(n²)" ∧ timeComplexity.expected = "O(n)" then
      ["Replace the nested loops with a single pass through the data, possibly using a hash map or additional data structure."]
     else [])
   else []) ++
  (if spaceComplexity.score < 80 then
    ["Consider optimizing space usage by modifying data in-place or using more memory-efficient data structures."]
   else []) ++
  (if edgeCases.missed.length > 0 then
    ["Add checks for these edge cases: " ++ String.intercalate ", " edgeCases.missed ++ "."]
   else []) ++
  (if codeQuality.readability < 80 then
    ["Improve readability with better variable names, comments explaining the approach, and consistent indentation."]
   else []) ++
  (if codeQuality.maintainability < 80 then
    ["Break down complex logic into smaller, well-named functions to improve maintainability."]
   else []) ++
  (if codeQuality.bestPractices < 80 then
    ["Follow industry best practices: use const/let instead of var, add proper error handling, and employ modern syntax where appropriate."]
   else []) ++
  (if analysis.hasLoops ∧ ¬ analysis.detectedDataStructures.contains "hash-map" ∧
      (timeComplexity.actual = "O(n²)" ∨ timeComplexity.actual = "O(n)") then
    ["Consider using a hash map/dictionary for faster lookups, potentially reducing time complexity."]
   else [])

/-- `EvaluationAgent.performEvaluation`: the weighted overall score is
`Math.round(0.4·correctness + 0.15·time + 0.15·space + 0.15·edge +
0.15·mean(codeQuality))`. -/
def performEvaluation (code language : String) (problem : Entity ProblemData) :
    CodeEvaluation :=
  let analysis := analyzeCode code language problem
  let correctnessScore := evaluateCorrectness code problem
  let timeComplexityScore := evaluateTimeComplexity code problem
  let spaceComplexityScore := evaluateSpaceComplexity code problem
  let edgeCasesScore := evaluateEdgeCases code problem
  let codeQualityScore := evaluateCodeQuality code language
  let overallScore : ℚ :=
    ((round (correctnessScore * (0.4 : ℚ) +
      timeComplexityScore.score * (0.15 : ℚ) +
      spaceComplexityScore.score * (0.15 : ℚ) +
      edgeCasesScore.score * (0.15 : ℚ) +
      (codeQualityScore.readability + codeQualityScore.maintainability +
        codeQualityScore.bestPractices) / 3 * (0.15 : ℚ)) : ℤ) : ℚ)
  { correctness := correctnessScore,
    timeComplexity := timeComplexityScore,
    spaceComplexity := spaceComplexityScore,
    edgeCases := edgeCasesScore,
    codeQuality := codeQualityScore,
    overallScore := overallScore,
    feedback := generateFeedback correctnessScore timeComplexityScore
      spaceComplexityScore edgeCasesScore codeQualityScore problem,
    suggestions := generateSuggestions analysis timeComplexityScore
      spaceComplexityScore edgeCasesScore codeQualityScore }

/-- `EvaluationAgent.getProblemDetails`: `try/catch` turning a store
failure into `null`. -/
def getProblemDetails (e : Env) (s : SystemState) (problemId : String) :
    Option (Entity ProblemData) :=
  match retrieveFromIndexedDB e s.problems "problems" problemId with
  | .error _ => none
  | .ok r => r

/-- `EvaluationAgent.generateDetailedFeedback`. -/
def generateDetailedFeedback (evaluation : CodeEvaluation) (code language : String) :
    String :=
  let detailedFeedback := evaluation.feedback ++ "\n\n" ++ "Detailed Analysis:\n\n"
  let detailedFeedback := detailedFeedback ++
    "Correctness (" ++ numStr evaluation.correctness ++ "/100): " ++
    (if evaluation.correctness ≥ 90 then
      "Your solution appears to be correct and addresses the requirements of the problem.\n\n"
     else if evaluation.correctness ≥ 70 then
      "Your solution addresses the main requirements but may not handle all scenarios correctly.\n\n"
     else
      "Your solution may have significant logical issues that prevent it from solving the problem correctly.\n\n")
  let detailedFeedback := detailedFeedback ++
    "Time Complexity (" ++ numStr evaluation.timeComplexity.score ++
    "/100): Your solution has an estimated complexity of " ++
    evaluation.timeComplexity.actual ++
    ", while the expected optimal solution is " ++
    evaluation.timeComplexity.expected ++ ".\n\n"
  let detailedFeedback := detailedFeedback ++
    "Space Complexity (" ++ numStr evaluation.spaceComplexity.score ++
    "/100): Your solution uses approximately " ++
    evaluation.spaceComplexity.actual ++ " space, compared to an expected " ++
    evaluation.spaceComplexity.expected ++ ".\n\n"
  let detailedFeedback := detailedFeedback ++
    "Edge Case Handling (" ++ numStr evaluation.edgeCases.score ++ "/100): " ++
    (if evaluation.edgeCases.covered.length > 0 then
      "You\x27ve handled these edge cases well: " ++
        String.intercalate ", " evaluation.edgeCases.covered ++ ". "
     else "") ++
    (if evaluation.edgeCases.missed.length > 0 then
      "You should also consider these edge cases: " ++
        String.intercalate ", " evaluation.edgeCases.missed ++ ". "
     else "") ++ "\n\n"
  let avgQuality : ℚ := ((round ((evaluation.codeQuality.readability +
    evaluation.codeQuality.maintainability +
    evaluation.codeQuality.bestPractices) / 3) : ℤ) : ℚ)
  detailedFeedback ++
    "Code Quality (" ++ numStr avgQuality ++ "/100):\n" ++
    "- Readability: " ++ numStr evaluation.codeQuality.readability ++ "/100\n" ++
    "- Maintainability: " ++ numStr evaluation.codeQuality.maintainability ++ "/100\n" ++
    "- Best Practices: " ++ numStr evaluation.codeQuality.bestPractices ++ "/100\n\n"

/-- `EvaluationAgent.generateImprovementSuggestions`. -/
def generateImprovementSuggestions (evaluation : CodeEvaluation)
    (code language : String) : List String :=
  evaluation.suggestions ++
  (if language = "javascript" ∨ language = "typescript" then
    (if evaluation.timeComplexity.score < 90 then
      ["For better time efficiency, consider using JavaScript built-ins like Map, Set, or array methods like reduce(), filter(), and map()."]
     else []) ++
    (if evaluation.codeQuality.readability < 85 then
      ["Use destructuring and template literals to make your code more readable:\n```javascript\nconst \x7b name, age \x7d = person;\nconst greeting = \x60Hello, $\x7bname\x7d!\x60;\n```"]
     else [])
   else if language = "python" then
    (if evaluation.timeComplexity.score < 90 then
      ["Consider using Python\x27s built-in data structures like dict, set, or list comprehensions for better performance."]
     else []) ++
    (if evaluation.codeQuality.readability < 85 then
      ["Use list comprehensions and dict comprehensions for more concise code:\n```python\nsquared = [x*x for x in numbers]\n```"]
     else [])
   else []) ++
  (if evaluation.codeQuality.maintainability < 80 then
    ["Extract repeating logic into helper functions. For example:\n```\nfunction isValidInput(input) \x7b\n  return input !== null && input !== undefined && input.length > 0;\n\x7d\n```"]
   else []) ++
  (if evaluation.edgeCases.score < 70 then
    ["Add explicit checks for common edge cases at the beginning of your function:\n```\nif (!input || input.length === 0) \x7b\n  return defaultValue; // Handle empty input\n\x7d\n```"]
   else [])

/-- `EvaluationAgent.evaluateCode` (the `evaluate` handler). -/
def evaluateCodeHandler (e : Env) (s : SystemState) (m : Msg) :
    Except String (Msg × SystemState × Env) :=
  match m.payload with
  | .evalReq code language problemId userId sessionId _ =>
    if code = "" ∨ language = "" ∨ problemId = "" ∨ userId = "" ∨ sessionId = "" then
      .error "All evaluation parameters are required"
    else match getProblemDetails e s problemId with
    | none => .error ("Problem not found: " ++ problemId)
    | some problem =>
      let evaluation := performEvaluation code language problem
      match persistToIndexedDB (e.fresh).2 s.evaluations "evaluations"
          ⟨some (e.fresh).1,
           { userId := userId, sessionId := sessionId, problemId := problemId,
             code := code, language := language, evaluation := evaluation,
             timestamp := (e.fresh).2.now }⟩ with
      | .error err => .error err
      | .ok (evaluations, e2) =>
        .ok (createResponse m "evaluate"
              (.evalResp code language problemId userId sessionId evaluation),
             { s with evaluations := evaluations }, e2)
  | _ => .error "All evaluation parameters are required"

/-- The shared lookup of a prior matching evaluation
(`existingEvaluations.find(...)`). -/
def findMatching (existing : List (Entity EvalRecData))
    (userId problemId code : String) : Option (Entity EvalRecData) :=
  existing.find? (fun r => decide (r.val.userId = userId) &&
    decide (r.val.problemId = problemId) && decide (r.val.code = code))

/-- `EvaluationAgent.provideFeedback` (the `feedback` handler): reuse
the payload's evaluation, else a stored matching one, else recompute. -/
def provideFeedback (e : Env) (s : SystemState) (m : Msg) :
    Except String (Msg × SystemState × Env) :=
  match m.payload with
  | .evalReq code language problemId userId sessionId evaluationOpt =>
    if code = "" ∨ language = "" ∨ problemId = "" ∨ userId = "" ∨ sessionId = "" then
      .error "All feedback parameters are required"
    else
      match (match evaluationOpt with
        | some evaluation => Except.ok evaluation
        | none =>
          match retrieveAllFromIndexedDB e s.evaluations "evaluations" with
          | .error err => .error err
          | .ok existing =>
            match findMatching existing userId problemId code with
            | some matching => .ok matching.val.evaluation
            | none =>
              match getProblemDetails e s problemId with
              | none => .error ("Problem not found: " ++ problemId)
              | some problem => .ok (performEvaluation code language problem)) with
      | .error err => .error err
      | .ok evaluation =>
        .ok (createResponse m "feedback"
              (.evalResp code language problemId userId sessionId
                { evaluation with
                  feedback := generateDetailedFeedback evaluation code language }),
             s, e)
  | _ => .error "All feedback parameters are required"

/-- `EvaluationAgent.suggestImprovements` (the `improve` handler). -/
def suggestImprovements (e : Env) (s : SystemState) (m : Msg) :
    Except String (Msg × SystemState × Env) :=
  match m.payload with
  | .evalReq code language problemId userId sessionId evaluationOpt =>
    if code = "" ∨ language = "" ∨ problemId = "" ∨ userId = "" ∨ sessionId = "" then
      .error "All improvement parameters are required"
    else
      match (match evaluationOpt with
        | some evaluation => Except.ok evaluation
        | none =>
          match retrieveAllFromIndexedDB e s.evaluations "evaluations" with
          | .error err => .error err
          | .ok existing =>
            match findMatching existing userId problemId code with
            | some matching => .ok matching.val.evaluation
            | none =>
              match getProblemDetails e s problemId with
              | none => .error ("Problem not found: " ++ problemId)
              | some problem => .ok (performEvaluation code language problem)) with
      | .error err => .error err
      | .ok evaluation =>
        .ok (createResponse m "improve"
              (.evalResp code language problemId userId sessionId
                { evaluation with
                  suggestions := generateImprovementSuggestions evaluation code language }),
             s, e)
  | _ => .error "All improvement parameters are required"

/-- `EvaluationAgent.handleMessage`. -/
def handleMessage : HandlerFun := fun e s m =>
  match m.type with
  | some "evaluate" => evaluateCodeHandler e s m
  | some "feedback" => provideFeedback e s m
  | some "improve" => suggestImprovements e s m
  | t => .error ("Unknown message type: " ++ t.getD "undefined")

end EvaluationAgent

/-! ### StudyPlanAgent -/

namespace StudyPlanAgent

/-- `StudyPlanAgent.calculateAverage`. -/
def calculateAverage (values : List ℚ) : ℚ :=
  if values.length = 0 then 0 else values.sum / values.length

/-- `StudyPlanAgent.getEvaluationsForUser`: `try/catch` turning a store
failure into the empty list. -/
def getEvaluationsForUser (e : Env) (s : SystemState) (userId : String)
    (sessionIds : Option (List String)) : List CodeEvaluation :=
  match retrieveAllFromIndexedDB e s.evaluations "evaluations" with
  | .error _ => []
  | .ok allEvaluations =>
    let userEvaluations : List (Entity EvalRecData) := allEvaluations.filter
      (fun item => decide (item.val.userId = userId))
    let userEvaluations : List (Entity EvalRecData) := match sessionIds with
      | some ids =>
        if ids.length > 0 then
          userEvaluations.filter (fun item => ids.contains item.val.sessionId)
        else userEvaluations
      | none => userEvaluations
    userEvaluations.map (·.val.evaluation)

/-- The demo category list of `generatePerformanceMetrics`. -/
def demoCategories : List String :=
  ["arrays", "algorithms", "data structures", "time complexity",
   "space complexity", "edge cases", "code quality"]

/-- The random distribution loop of `generatePerformanceMetrics`: each
evaluation is pushed onto a random category's bucket (a `forEach`,
written as structural recursion). -/
def distributeEvals (e : Env) :
    List CodeEvaluation → List (String × List CodeEvaluation) →
    (List (String × List CodeEvaluation)) × Env
  | [], m => (m, e)
  | ev :: rest, m =>
    let d := e.draw demoCategories.length
    let cat := demoCategories.getD d.1 ""
    distributeEvals d.2 rest (aset cat ((alookup cat m).getD [] ++ [ev]) m)

/-- The per-category metric construction of
`generatePerformanceMetrics`. -/
def mkMetric (category : String) (categoryEvals : List CodeEvaluation) :
    PerformanceMetric :=
  let avgOverallScore := calculateAverage (categoryEvals.map (·.overallScore))
  let avgTimeComplexityScore :=
    calculateAverage (categoryEvals.map (·.timeComplexity.score))
  let avgSpaceComplexityScore :=
    calculateAverage (categoryEvals.map (·.spaceComplexity.score))
  let avgEdgeCasesScore := calculateAverage (categoryEvals.map (·.edgeCases.score))
  let avgCodeQualityScore := calculateAverage (categoryEvals.map (fun ev =>
    (ev.codeQuality.readability + ev.codeQuality.maintainability +
      ev.codeQuality.bestPractices) / 3))
  let commonMistakes :=
    (if avgTimeComplexityScore < 70 then
      ["Inefficient algorithms (time complexity)"] else []) ++
    (if avgSpaceComplexityScore < 70 then
      ["Inefficient memory usage (space complexity)"] else []) ++
    (if avgEdgeCasesScore < 70 then
      (let missedEdgeCases := dedupFirst ((categoryEvals.map (·.edgeCases.missed)).flatten)
       if missedEdgeCases.length > 0 then
         ["Missing edge cases: " ++ String.intercalate ", " missedEdgeCases]
       else [])
     else []) ++
    (if avgCodeQualityScore < 70 then
      ["Code quality issues (readability, maintainability, best practices)"] else [])
  let strengths :=
    (if avgTimeComplexityScore ≥ 85 then ["Good algorithmic efficiency"] else []) ++
    (if avgSpaceComplexityScore ≥ 85 then ["Good memory optimization"] else []) ++
    (if avgEdgeCasesScore ≥ 85 then ["Thorough edge case handling"] else []) ++
    (if avgCodeQualityScore ≥ 85 then ["High code quality"] else [])
  let weaknesses :=
    (if avgTimeComplexityScore < 60 then
      ["Needs significant improvement in algorithm efficiency"] else []) ++
    (if avgSpaceComplexityScore < 60 then
      ["Needs significant improvement in memory optimization"] else []) ++
    (if avgEdgeCasesScore < 60 then
      ["Needs significant improvement in edge case handling"] else []) ++
    (if avgCodeQualityScore < 60 then
      ["Needs significant improvement in code quality"] else [])
  { category := category, score := ((round avgOverallScore : ℤ) : ℚ),
    problemsSolved := categoryEvals.length, averageTime := 0,
    commonMistakes := commonMistakes, strengths := strengths,
    weaknesses := weaknesses }

/-- `StudyPlanAgent.generatePerformanceMetrics`. -/
def generatePerformanceMetrics (e : Env) (evaluations : List CodeEvaluation) :
    List PerformanceMetric × Env :=
  if evaluations.length = 0 then ([], e)
  else
    let init := demoCategories.map (fun c => (c, ([] : List CodeEvaluation)))
    let r := distributeEvals e evaluations init
    ((r.1.filter (fun b => b.2.length ≠ 0)).map (fun b => mkMetric b.1 b.2), r.2)

/-- `StudyPlanAgent.calculatePriority`. -/
def calculatePriority (metric : PerformanceMetric) : ℤ :=
  let priority : ℤ := max 1 (5 - ⌊metric.score / 20⌋)
  if metric.weaknesses.length ≥ 3 then min 5 (priority + 1) else priority

/-- The static resource table of `getResourcesForCategory`. -/
def categoryResources (category : String) : List PlanResource :=
  if category = "arrays" then
    [{ title := "Array Manipulation Techniques", type := "article", url := none,
       description := "Learn essential array manipulation techniques for coding interviews." },
     { title := "Array Problems Practice Set", type := "practice", url := none,
       description := "A set of array problems to practice your skills." }]
  else if category = "algorithms" then
    [{ title := "Introduction to Algorithms", type := "book", url := none,
       description := "A comprehensive guide to algorithms and their implementations." },
     { title := "Algorithm Visualization", type := "video", url := none,
       description := "Visual explanations of common algorithms." }]
  else if category = "data structures" then
    [{ title := "Mastering Data Structures", type := "article", url := none,
       description := "A deep dive into various data structures and their applications." },
     { title := "Data Structures Practice Problems", type := "practice", url := none,
       description := "Practice problems focusing on different data structures." }]
  else if category = "time complexity" then
    [{ title := "Understanding Time Complexity", type := "article", url := none,
       description := "A guide to understanding and calculating time complexity." },
     { title := "Optimizing Algorithms for Performance", type := "video", url := none,
       description := "Learn techniques to optimize your algorithms for better performance." }]
  else if category = "space complexity" then
    [{ title := "Space Complexity Analysis", type := "article", url := none,
       description := "A guide to understanding and calculating space complexity." },
     { title := "Memory Optimization Techniques", type := "video", url := none,
       description := "Learn how to optimize memory usage in your algorithms." }]
  else if category = "edge cases" then
    [{ title := "Handling Edge Cases in Coding", type := "article", url := none,
       description := "Learn how to identify and handle edge cases in your code." },
     { title := "Edge Case Practice Problems", type := "practice", url := none,
       description := "Practice problems that focus on edge case handling." }]
  else if category = "code quality" then
    [{ title := "Writing Clean Code", type := "book", url := none,
       description := "A guide to writing clean, maintainable, and efficient code." },
     { title := "Code Review Checklist", type := "article", url := none,
       description := "A checklist for reviewing and improving your code quality." }]
  else []

/-- The weakness-driven extra resources of `getResourcesForCategory`. -/
def weaknessResources (weakness : String) : List PlanResource :=
  let weaknessKeyword := weakness.toLower
  (if jsIncludes weaknessKeyword "algorithm" ∨
      jsIncludes weaknessKeyword "time complexity" then
    [{ title := "Algorithm Efficiency Fundamentals", type := "article", url := none,
       description := "Learn how to design efficient algorithms and analyze time complexity." }]
   else []) ++
  (if jsIncludes weaknessKeyword "memory" ∨
      jsIncludes weaknessKeyword "space complexity" then
    [{ title := "Memory-Efficient Programming", type := "article", url := none,
       description := "Techniques for reducing memory usage in your programs." }]
   else []) ++
  (if jsIncludes weaknessKeyword "edge case" then
    [{ title := "Comprehensive Edge Case Analysis", type := "article", url := none,
       description := "A systematic approach to identifying and handling edge cases." }]
   else []) ++
  (if jsIncludes weaknessKeyword "code quality" ∨
      jsIncludes weaknessKeyword "readability" ∨
      jsIncludes weaknessKeyword "maintainability" then
    [{ title := "Code Quality Best Practices", type := "video", url := none,
       description := "Learn industry best practices for writing high-quality code." }]
   else [])

/-- Keep the first occurrence of each title
(`filter((r, i, self) => i === self.findIndex(...))`). -/
def dedupByTitle (l : List PlanResource) : List PlanResource :=
  l.foldl (fun acc r => if acc.any (fun r2 => r2.title = r.title) then acc
    else acc ++ [r]) []

/-- `StudyPlanAgent.getResourcesForCategory`. -/
def getResourcesForCategory (category : String) (weaknesses : List String) :
    List PlanResource :=
  dedupByTitle (categoryResources category ++ (weaknesses.map weaknessResources).flatten)

/-- `StudyPlanAgent.generateRecommendations`: one recommendation per
metric scoring below 85, sorted by priority descending (stable). -/
def generateRecommendations (metrics : List PerformanceMetric) :
    List Recommendation :=
  let recommendations := (metrics.filter (fun metric => ¬ (metric.score ≥ 85))).map
    (fun metric =>
      { category := metric.category,
        resources := getResourcesForCategory metric.category metric.weaknesses,
        priority := calculatePriority metric })
  recommendations.mergeSort (fun a b => decide (b.priority ≤ a.priority))

/-- `StudyPlanAgent.generateMilestones`. -/
def generateMilestones (e : Env) (metrics : List PerformanceMetric)
    (recommendations : List Recommendation) : List Milestone :=
  let highPriorityRecs := recommendations.filter (fun r => decide (r.priority ≥ 4))
  (highPriorityRecs.map (fun r =>
    ({ title := "Improve " ++ r.category,
       description := "Focus on improving your " ++ r.category ++
         " skills by studying the provided resources and practicing problems.",
       targetDate := e.now + 7 * 24 * 60 * 60 * 1000,
       completed := false } : Milestone))) ++
  [{ title := "Overall Skill Improvement",
     description := "Improve your overall coding skills by practicing a diverse set of problems and applying the learned concepts.",
     targetDate := e.now + 30 * 24 * 60 * 60 * 1000,
     completed := false }]

/-- `StudyPlanAgent.analyzePerformance` (the `analyze` handler). -/
def analyzePerformance (e : Env) (s : SystemState) (m : Msg) :
    Except String (Msg × SystemState × Env) :=
  match m.payload with
  | .planReq userId sessionIds _ _ =>
    if userId = "" then .error "User ID is required for performance analysis"
    else
      let evaluations := getEvaluationsForUser e s userId sessionIds
      let r := generatePerformanceMetrics e evaluations
      .ok (createResponse m "analyze" (.planMetricsResp userId r.1), s, r.2)
  | _ => .error "User ID is required for performance analysis"

/-- `StudyPlanAgent.generateStudyPlan` (the `generate` handler): the
plan is rebuilt from the evaluations and persisted; `StudyPlan` has no
`id` field, so `persistToIndexedDB` stores it under a fresh uuid. -/
def generateStudyPlan (e : Env) (s : SystemState) (m : Msg) :
    Except String (Msg × SystemState × Env) :=
  match m.payload with
  | .planReq userId sessionIds providedEvaluations _ =>
    if userId = "" then .error "User ID is required for study plan generation"
    else
      let evaluations := match providedEvaluations with
        | some evs => evs
        | none => getEvaluationsForUser e s userId sessionIds
      let r := generatePerformanceMetrics e evaluations
      let metrics := r.1
      let e2 := r.2
      let recommendations := generateRecommendations metrics
      let milestones := generateMilestones e2 metrics recommendations
      let studyPlan : StudyPlanData :=
        { userId := userId, createdAt := e2.now, metrics := metrics,
          recommendations := recommendations, milestones := milestones,
          lastUpdated := none }
      match persistToIndexedDB e2 s.studyPlans "study_plans" ⟨none, studyPlan⟩ with
      | .error err => .error err
      | .ok (studyPlans, e3) =>
        .ok (createResponse m "generate" (.planResp userId studyPlan),
             { s with studyPlans := studyPlans }, e3)
  | _ => .error "User ID is required for study plan generation"

/-- `StudyPlanAgent.updateStudyPlan` (the `update` handler). -/
def updateStudyPlan (e : Env) (s : SystemState) (m : Msg) :
    Except String (Msg × SystemState × Env) :=
  match m.payload with
  | .planReq userId _ _ (some studyPlan) =>
    if userId = "" then .error "User ID and study plan are required for updates"
    else
      match persistToIndexedDB e s.studyPlans "study_plans"
          ⟨none, { studyPlan with lastUpdated := some e.now }⟩ with
      | .error err => .error err
      | .ok (studyPlans, e2) =>
        .ok (createResponse m "update" (.planResp userId studyPlan),
             { s with studyPlans := studyPlans }, e2)
  | _ => .error "User ID and study plan are required for updates"

/-- `StudyPlanAgent.handleMessage`. -/
def handleMessage : HandlerFun := fun e s m =>
  match m.type with
  | some "analyze" => analyzePerformance e s m
  | some "generate" => generateStudyPlan e s m
  | some "update" => updateStudyPlan e s m
  | t => .error ("Unknown message type: " ++ t.getD "undefined")

end StudyPlanAgent

/-! ### ProblemAgent -/

namespace ProblemAgent

/-- `categories[0].charAt(0).toUpperCase() + categories[0].slice(1)`. -/
def capitalizeFirst (s : String) : String :=
  match s.toList with
  | [] => ""
  | c :: rest => String.mk (c.toUpper :: rest)

/-- `ProblemAgent.getProblemsFromDatabase`: `try/catch` turning a store
failure into the empty list. -/
def getProblemsFromDatabase (e : Env) (s : SystemState) : List (Entity ProblemData) :=
  match retrieveAllFromIndexedDB e s.problems "problems" with
  | .error _ => []
  | .ok r => r

/-- The `Two Sum` sample problem. -/
def twoSumData : ProblemData :=
  { title := "Two Sum",
    description := "Given an array of integers nums and an integer target, return indices of the two numbers such that they add up to target. You may assume that each input would have exactly one solution, and you may not use the same element twice.",
    difficulty := "easy", category := ["arrays", "algorithms"],
    inputFormat := "An array of integers nums and an integer target.",
    outputFormat := "Return an array of two integers, the indices of the two numbers that add up to target.",
    constraints := ["2 <= nums.length <= 10^4", "-10^9 <= nums[i] <= 10^9",
      "-10^9 <= target <= 10^9", "Only one valid answer exists."],
    examples := [
      { input := "nums = [2,7,11,15], target = 9", output := "[0,1]",
        explanation := some "Because nums[0] + nums[1] == 9, we return [0, 1]." },
      { input := "nums = [3,2,4], target = 6", output := "[1,2]",
        explanation := some "Because nums[1] + nums[2] == 6, we return [1, 2]." }],
    timeComplexity := "O(n)", spaceComplexity := "O(n)",
    tags := some ["arrays", "hash-table", "easy"] }

/-- The `Merge Sorted Arrays` sample problem. -/
def mergeSortedData : ProblemData :=
  { title := "Merge Sorted Arrays",
    description := "Given two sorted arrays, merge them into a single sorted array.",
    difficulty := "easy", category := ["arrays", "algorithms"],
    inputFormat := "Two sorted arrays of integers.",
    outputFormat := "A single sorted array containing all elements from both input arrays.",
    constraints := ["Both input arrays are already sorted in ascending order.",
      "The arrays may be of different lengths."],
    examples := [
      { input := "arr1 = [1,3,5], arr2 = [2,4,6]", output := "[1,2,3,4,5,6]",
        explanation := some "The arrays are merged while maintaining the sorted order." },
      { input := "arr1 = [1,2,3], arr2 = [4,5,6]", output := "[1,2,3,4,5,6]",
        explanation := some "The second array is appended to the first." }],
    timeComplexity := "O(n+m)", spaceComplexity := "O(n+m)",
    tags := some ["arrays", "two-pointers", "easy"] }

/-- The `Valid Parentheses` sample problem. -/
def validParensData : ProblemData :=
  { title := "Valid Parentheses",
    description := "Given a string containing just the characters \x60(\x60, \x60)\x60, \x60\x7b\x60, \x60\x7d\x60, \x60[\x60 and \x60]\x60, determine if the input string is valid. An input string is valid if: Open brackets must be closed by the same type of brackets, and open brackets must be closed in the correct order.",
    difficulty := "medium", category := ["stacks", "algorithms"],
    inputFormat := "A string containing only parentheses characters: \x60(\x60, \x60)\x60, \x60\x7b\x60, \x60\x7d\x60, \x60[\x60 and \x60]\x60.",
    outputFormat := "Return true if the string is valid, false otherwise.",
    constraints := ["1 <= s.length <= 10^4",
      "s consists of parentheses only \x60()[]\x7b\x7d\x60"],
    examples := [
      { input := "s = \"()\"", output := "true",
        explanation := some "The opening parenthesis is properly closed." },
      { input := "s = \"()[]\x7b\x7d\"", output := "true",
        explanation := some "All opening brackets are closed by the same type in the correct order." },
      { input := "s = \"(]\"", output := "false",
        explanation := some "The brackets are not closed with the same type." }],
    timeComplexity := "O(n)", spaceComplexity := "O(n)",
    tags := some ["stacks", "strings", "medium"] }

/-- The `LRU Cache` sample problem. -/
def lruCacheData : ProblemData :=
  { title := "LRU Cache",
    description := "Design and implement a data structure for Least Recently Used (LRU) cache. It should support the following operations: get and put. get(key) - Get the value of the key if the key exists in the cache, otherwise return -1. put(key, value) - Set or insert the value if the key is not already present. When the cache reached its capacity, it should invalidate the least recently used item before inserting a new item.",
    difficulty := "hard", category := ["data-structures", "design"],
    inputFormat := "Operations to perform on the LRU cache.",
    outputFormat := "Results of the get operations and confirmation of put operations.",
    constraints := ["The capacity of the cache is a positive integer.",
      "The functions get and put must each run in O(1) average time complexity."],
    examples := [
      { input := "LRUCache cache = new LRUCache(2); cache.put(1, 1); cache.put(2, 2); cache.get(1); cache.put(3, 3); cache.get(2); cache.put(4, 4); cache.get(1); cache.get(3); cache.get(4);",
        output := "[null, null, null, 1, null, -1, null, -1, 3, 4]",
        explanation := some "The operations follow the LRU policy where least recently used items are evicted when the cache is full." }],
    timeComplexity := "O(1) for both get and put operations",
    spaceComplexity := "O(capacity)",
    tags := some ["hash-table", "linked-list", "design", "hard"] }

/-- The `Binary Tree Level Order Traversal` sample problem. -/
def levelOrderData : ProblemData :=
  { title := "Binary Tree Level Order Traversal",
    description := "Given the root of a binary tree, return the level order traversal of its nodes\x27 values. (i.e., from left to right, level by level).",
    difficulty := "medium", category := ["trees", "algorithms"],
    inputFormat := "The root of a binary tree.",
    outputFormat := "An array of arrays, where each inner array contains the values of nodes at that level.",
    constraints := ["The number of nodes in the tree is in the range [0, 2000].",
      "-1000 <= Node.val <= 1000"],
    examples := [
      { input := "root = [3,9,20,null,null,15,7]", output := "[[3],[9,20],[15,7]]",
        explanation := some "The tree has 3 levels, and each level is represented as an array." },
      { input := "root = [1]", output := "[[1]]",
        explanation := some "A tree with only the root node has a single level." }],
    timeComplexity := "O(n)", spaceComplexity := "O(n)",
    tags := some ["trees", "breadth-first-search", "medium"] }

/-- The five seeded sample problems, each given a fresh uuid in
construction order. -/
def sampleProblems (e : Env) : List (Entity ProblemData) × Env :=
  let i1 := (e.fresh).1
  let e1 := (e.fresh).2
  let i2 := (e1.fresh).1
  let e2 := (e1.fresh).2
  let i3 := (e2.fresh).1
  let e3 := (e2.fresh).2
  let i4 := (e3.fresh).1
  let e4 := (e3.fresh).2
  let i5 := (e4.fresh).1
  let e5 := (e4.fresh).2
  ([⟨some i1, twoSumData⟩, ⟨some i2, mergeSortedData⟩, ⟨some i3, validParensData⟩,
    ⟨some i4, lruCacheData⟩, ⟨some i5, levelOrderData⟩], e5)

/-- Persist each sample problem, in order. -/
def persistProblemList (e : Env) (st : Store ProblemData) :
    List (Entity ProblemData) → Except String (Store ProblemData × Env)
  | [] => .ok (st, e)
  | p :: rest =>
    match persistToIndexedDB e st "problems" p with
    | .error err => .error err
    | .ok (st2, e2) => persistProblemList e2 st2 rest

/-- `ProblemAgent.initializeSampleProblems`. -/
def initializeSampleProblems (e : Env) (s : SystemState) :
    Except String (SystemState × Env) :=
  let r := sampleProblems e
  match persistProblemList r.2 s.problems r.1 with
  | .error err => .error err
  | .ok (problems, e2) => .ok ({ s with problems := problems }, e2)

/-- The difficulty/category filter shared by `request`, `suggest` and
`filter`. -/
def applyFilters (allProblems : List (Entity ProblemData))
    (difficulty : Option String) (category : Option (List String)) :
    List (Entity ProblemData) :=
  let filtered := allProblems
  let filtered := match difficulty with
    | some d => if d = "" then filtered
        else filtered.filter (fun p => decide (p.val.difficulty = d))
    | none => filtered
  match category with
  | some cats =>
    if cats.length > 0 then
      filtered.filter (fun p => p.val.category.any (fun c => cats.contains c))
    else filtered
  | none => filtered

/-- `ProblemAgent.generateGenericProblem`.  In JavaScript an empty
category list would make `categories[0].charAt` throw a `TypeError`
(caught by the worker's `onmessage`, yielding an error-typed response
with the same id); the model totalizes that corner with the empty
string, which no proved property depends on. -/
def generateGenericProblem (e : Env) (difficulty : String)
    (categories : List String) : Entity ProblemData × Env :=
  let c0 := (categories.head?).getD ""
  let data : ProblemData :=
    { title := capitalizeFirst c0 ++ " Challenge",
      description := ("Implement a solution for a " ++ difficulty ++ " level " ++
        c0 ++ " problem. The goal is to demonstrate your understanding of " ++
        String.intercalate ", " categories ++ " concepts."),
      difficulty := difficulty,
      category := categories,
      inputFormat := "Your function should accept appropriate parameters based on the problem description.",
      outputFormat := "Return the appropriate result as specified in the problem description.",
      constraints := ["Your solution should handle edge cases appropriately.",
        "Time complexity should be appropriate for a " ++ difficulty ++ " level problem.",
        "Space complexity should be optimized when possible."],
      examples := [
        { input := "Example input will depend on the specific problem.",
          output := "Example output will depend on the specific problem.",
          explanation := some "A detailed explanation would be provided here." }],
      timeComplexity := (if difficulty = "easy" then "O(n)"
        else if difficulty = "medium" then "O(n log n)" else "O(nÂ²)"),
      spaceComplexity := "O(n)",
      tags := some (categories ++ [difficulty]) }
  (⟨some (e.fresh).1, data⟩, (e.fresh).2)

/-- `ProblemAgent.trackProblemUsage`. -/
def trackProblemUsage (e : Env) (s : SystemState)
    (problemId userId sessionId : String) : Except String (SystemState × Env) :=
  let uid := (e.fresh).1
  let e2 := (e.fresh).2
  match persistToIndexedDB e2 s.problemUsage "problem_usage"
      ⟨some uid, { problemId := problemId, userId := userId,
                   sessionId := sessionId, timestamp := e2.now }⟩ with
  | .error err => .error err
  | .ok (pu, e3) => .ok ({ s with problemUsage := pu }, e3)

/-- `ProblemAgent.requestProblem`. -/
def requestProblem (e : Env) (s : SystemState) (m : Msg) :
    Except String (Msg × SystemState × Env) :=
  match m.payload with
  | .problemReq (some userId) (some sessionId) difficulty category _ =>
    if userId = "" ∨ sessionId = "" then .error "User ID and session ID are required"
    else
      let allProblems := getProblemsFromDatabase e s
      match (if allProblems.length = 0 then
          match initializeSampleProblems e s with
          | .error err => .error err
          | .ok (s2, e2) => .ok (getProblemsFromDatabase e2 s2, s2, e2)
        else .ok (allProblems, s, e) :
          Except String (List (Entity ProblemData) × SystemState × Env)) with
      | .error err => .error err
      | .ok (allProblems, s2, e2) =>
        let filteredProblems := applyFilters allProblems difficulty category
        let sel : Entity ProblemData × Env :=
          if h : filteredProblems.length > 0 then
            let d := e2.draw filteredProblems.length
            (filteredProblems.getD d.1 ⟨none, twoSumData⟩, d.2)
          else
            generateGenericProblem e2 (jsOr difficulty "medium")
              ((category.filter (fun c => c ≠ [])).getD ["algorithms"])
        match trackProblemUsage sel.2 s2 ((sel.1.id).getD "") userId sessionId with
        | .error err => .error err
        | .ok (s3, e3) =>
          .ok (createResponse m "provide" (.problemResp sel.1 userId sessionId),
               s3, e3)
  | _ => .error "User ID and session ID are required"

/-- `ProblemAgent.suggestProblems`: up to 3 matches. -/
def suggestProblems (e : Env) (s : SystemState) (m : Msg) :
    Except String (Msg × SystemState × Env) :=
  match m.payload with
  | .problemReq (some userId) (some sessionId) difficulty category _ =>
    if userId = "" ∨ sessionId = "" then .error "User ID and session ID are required"
    else
      let allProblems := getProblemsFromDatabase e s
      let filteredProblems := applyFilters allProblems difficulty category
      .ok (createResponse m "suggest"
            (.problemsResp (filteredProblems.take 3) userId sessionId), s, e)
  | _ => .error "User ID and session ID are required"

/-- `ProblemAgent.provideProblem`. -/
def provideProblem (e : Env) (s : SystemState) (m : Msg) :
    Except String (Msg × SystemState × Env) :=
  match m.payload with
  | .problemReq (some userId) (some sessionId) _ _ problem =>
    if userId = "" ∨ sessionId = "" then .error "User ID and session ID are required"
    else match problem with
    | none => .error "Problem ID is required"
    | some problem =>
      if strFalsy problem.id then .error "Problem ID is required"
      else match retrieveFromIndexedDB e s.problems "problems" ((problem.id).getD "") with
      | .error err => .error err
      | .ok none => .error ("Problem not found: " ++ (problem.id).getD "")
      | .ok (some problemFromDb) =>
        match trackProblemUsage e s ((problemFromDb.id).getD "") userId sessionId with
        | .error err => .error err
        | .ok (s2, e2) =>
          .ok (createResponse m "provide"
                (.problemResp problemFromDb userId sessionId), s2, e2)
  | _ => .error "User ID and session ID are required"

/-- `ProblemAgent.filterProblems`. -/
def filterProblems (e : Env) (s : SystemState) (m : Msg) :
    Except String (Msg × SystemState × Env) :=
  match m.payload with
  | .problemReq (some userId) (some sessionId) difficulty category _ =>
    if userId = "" ∨ sessionId = "" then .error "User ID and session ID are required"
    else
      let allProblems := getProblemsFromDatabase e s
      let filteredProblems := applyFilters allProblems difficulty category
      .ok (createResponse m "filter"
            (.problemsResp filteredProblems userId sessionId), s, e)
  | _ => .error "User ID and session ID are required"

/-- `ProblemAgent.handleMessage`. -/
def handleMessage : HandlerFun := fun e s m =>
  match m.type with
  | some "request" => requestProblem e s m
  | some "suggest" => suggestProblems e s m
  | some "provide" => provideProblem e s m
  | some "filter" => filterProblems e s m
  | t => .error ("Unknown message type: " ++ t.getD "undefined")

end ProblemAgent

/-! ### The dispatcher (`AgentManager`) -/

/-- `AgentRole`. -/
inductive Role where
  | session
  | problem
  | evaluation
  | hint
  | studyPlan
  | history
deriving DecidableEq

/-- The `handleMessage` of the worker owned by each role
(`initializeWorkers` creates exactly one per role). -/
def roleHandler : Role → HandlerFun
  | .session => SessionAgent.handleMessage
  | .problem => ProblemAgent.handleMessage
  | .evaluation => EvaluationAgent.handleMessage
  | .hint => HintAgent.handleMessage
  | .studyPlan => StudyPlanAgent.handleMessage
  | .history => HistoryAgent.handleMessage

/-- One full processing step of a worker: `BaseAgent`'s `onmessage`
wrapper around the role handler. -/
def workerOnMessage (r : Role) (e : Env) (s : SystemState) (m : Msg) :
    Msg × SystemState × Env :=
  baseOnMessage (roleHandler r) e s m

/-- How a caller's pending promise is completed. -/
inductive Outcome where
  | resolved (m : Msg)
  | rejected (err : String)

/-- `Outcome.resolved`? -/
def Outcome.isResolved : Outcome → Bool
  | .resolved _ => true
  | .rejected _ => false

/-- `Outcome.rejected`? -/
def Outcome.isRejected : Outcome → Bool
  | .resolved _ => false
  | .rejected _ => true

/-- The dispatcher's `activeRequests` table: message id ↦ caller token
(standing for the `{resolve, reject}` pair of one `sendMessage` call). -/
structure DispatchState where
  active : List (String × Nat)

/-- The dispatcher's timeout, in milliseconds. -/
def TIMEOUT_MS : Nat := 30000

/-- `AgentManager.handleWorkerMessage`, restricted to promise
completion: when a pending completion matches the response id it is
RESOLVED with the message — even when the message is error-typed — and
removed from the table; otherwise the message is dropped.  (The
side-channel broadcast to handlers registered with `registerHandler`
never touches completions and is not modelled.) -/
def handleWorkerMessage (ds : DispatchState) (m : Msg) :
    DispatchState × Option (Nat × Outcome) :=
  match m.id with
  | none => (ds, none)
  | some k =>
    match alookup k ds.active with
    | some caller => (⟨aerase k ds.active⟩, some (caller, .resolved m))
    | none => (ds, none)

/-- The timeout callback armed by `sendMessage`, firing `TIMEOUT_MS`
after the send: reject the completion with the timeout error and remove
it if it is still pending, else do nothing. -/
def fireTimeout (ds : DispatchState) (mid : String) :
    DispatchState × Option (Nat × Outcome) :=
  match alookup mid ds.active with
  | some caller =>
    (⟨aerase mid ds.active⟩,
     some (caller, .rejected ("Request timed out for message " ++ mid)))
  | none => (ds, none)

/-- The synchronous part of one `AgentManager.sendMessage` call: assign
an id when the message has none, register the pending completion under
it, arm the timeout for `now + TIMEOUT_MS`, and forward the id-carrying
copy of the message to the worker. -/
structure SendResult where
  mid : String
  forwarded : Msg
  state : DispatchState
  timerAt : Nat

/-- `AgentManager.sendMessage` (up to the worker post). -/
def sendMessage (ds : DispatchState) (caller : Nat) (e : Env) (m : Msg) :
    SendResult × Env :=
  ({ mid := (jsOrFresh m.id e).1,
     forwarded := { m with id := some ((jsOrFresh m.id e).1) },
     state := ⟨aset ((jsOrFresh m.id e).1) caller ds.active⟩,
     timerAt := e.now + TIMEOUT_MS }, (jsOrFresh m.id e).2)

/-- A concrete environment for instantiating closed statements. -/
def env0 : Env :=
  { counter := 0, now := 0, randSeq := fun _ => 0, randIdx := 0, dbFail := false }

/-- The empty system state. -/
def sys0 : SystemState :=
  { sessions := [], problems := [], problemUsage := [], evaluations := [],
    hints := [], studyPlans := [], sessionHistory := [] }

end TutorSpark

namespace TutorSpark

/-! ## Theorems -/

theorem alookup_aset_self (k : String) (v : β) (l : List (String × β)) :
    alookup k (aset k v l) = some v := by
  induction l with
  | nil => simp [aset, alookup]
  | cons p rest ih =>
    by_cases h : p.1 = k
    · simp [aset, h, alookup]
    · simp [aset, h, alookup, ih]

theorem alookup_aset_ne (k k' : String) (v : β) (l : List (String × β)) (h : k' ≠ k) :
    alookup k' (aset k v l) = alookup k' l := by
  induction l with
  | nil => simp [aset, alookup, Ne.symm h]
  | cons p rest ih =>
    by_cases hp : p.1 = k
    · simp [aset, hp, alookup, Ne.symm h, h, ih]
    · simp [aset, hp, alookup, ih]

theorem alookup_aerase_self (k : String) (l : List (String × β)) :
    alookup k (aerase k l) = none := by
  induction l with
  | nil => simp [aerase, alookup]
  | cons p rest ih =>
    by_cases h : p.1 = k
    · simpa [aerase, h] using ih
    · simpa [aerase, h, alookup] using ih

theorem uuidGen_ne_empty (n : Nat) : uuidGen n ≠ "" := by
  intro h
  have h2 := congrArg String.length h
  rw [uuidGen, String.length_append] at h2
  have h5 : ("uuid-" : String).length = 5 := rfl
  have h0 : ("" : String).length = 0 := rfl
  rw [h5, h0] at h2
  omega

theorem jsOr_of_not_falsy (s : Option String) (d : String) (h : strFalsy s = false) :
    some (jsOr s d) = s := by
  cases s with
  | none => simp [strFalsy] at h
  | some t =>
    simp [strFalsy] at h
    simp [jsOr, h]

theorem jsOrFresh_ne_empty (s : Option String) (e : Env) :
    (jsOrFresh s e).1 ≠ "" := by
  rw [jsOrFresh]
  split
  · exact uuidGen_ne_empty e.counter
  · next h =>
    cases s with
    | none => simp [strFalsy] at h
    | some t =>
      simp [strFalsy] at h
      simp [jsOr, h]

theorem jsOrFresh_dbFail (s : Option String) (e : Env) :
    (jsOrFresh s e).2.dbFail = e.dbFail := by
  rw [jsOrFresh]
  split <;> simp [Env.fresh]

theorem jsOrFresh_now (s : Option String) (e : Env) :
    (jsOrFresh s e).2.now = e.now := by
  rw [jsOrFresh]
  split <;> simp [Env.fresh]

theorem getColl_setColl (st : Store α) (n : String) (c : Coll α) :
    getColl (setColl st n c) n = c := by
  simp [getColl, setColl, alookup_aset_self]

/-- C8: a successful `end` request marks the stored session record
inactive and stamps an `endTime`, leaving everything else unchanged: the
record stays in the `sessions` collection under the same id with its
prior `context`, `startTime`, `lastActive` and `messages`; every other
record of the collection and every other collection is untouched. -/
theorem endSession_frame (e : Env) (s : SystemState) (c : Option SessionContext)
    (mm : Option String) (mid : Option String) (sid : String)
    (sess : Entity SessionData)
    (hdb : e.dbFail = false) (hsid : sid ≠ "")
    (hget : alookup sid (getColl s.sessions "sessions") = some sess)
    (hkey : sess.id = some sid) :
    ∃ resp s' e',
      SessionAgent.handleMessage e s ⟨mid, some "end", .sessionReq c (some sid) mm⟩ =
        .ok (resp, s', e') ∧
      alookup sid (getColl s'.sessions "sessions") =
        some { sess with val := { sess.val with isActive := false, endTime := some e.now } } ∧
      (∀ k, k ≠ sid → alookup k (getColl s'.sessions "sessions") =
        alookup k (getColl s.sessions "sessions")) ∧
      s'.problems = s.problems ∧ s'.evaluations = s.evaluations ∧
      s'.hints = s.hints ∧ s'.studyPlans = s.studyPlans ∧
      s'.sessionHistory = s.sessionHistory ∧ s'.problemUsage = s.problemUsage ∧
      resp.type = some "end" ∧ resp.id = mid := by
  have hrun : SessionAgent.handleMessage e s ⟨mid, some "end", .sessionReq c (some sid) mm⟩ =
      .ok (createResponse ⟨mid, some "end", .sessionReq c (some sid) mm⟩ "end"
            (.sessionEndResp sid
              "Your tutoring session has ended. Thank you for practicing with the Industry Coding Tutor!"),
           { s with sessions := (setColl s.sessions "sessions"
              (aset sid
                { sess with val := { sess.val with isActive := false, endTime := some e.now } }
                (getColl s.sessions "sessions"))) },
           e) := by
    simp [SessionAgent.handleMessage, SessionAgent.endSession, retrieveFromIndexedDB,
      persistToIndexedDB, hdb, hget, hkey, jsOrFresh, strFalsy, jsOr, hsid]
  refine ⟨_, _, _, hrun, ?_, ?_, rfl, rfl, rfl, rfl, rfl, rfl, rfl, rfl⟩
  · rw [getColl_setColl, alookup_aset_self]
  · intro k hk
    rw [getColl_setColl, alookup_aset_ne _ _ _ _ hk]

/-- Witness for `endSession_frame` at a concrete stored session. -/
theorem endSession_frame_witness :
    (({ counter := 0, now := 77, randSeq := fun _ => 0, randIdx := 0,
        dbFail := false : Env }).dbFail = false) ∧
    (∃ resp s' e',
      SessionAgent.handleMessage
          { counter := 0, now := 77, randSeq := fun _ => 0, randIdx := 0, dbFail := false }
          { sessions := [("sessions",
              [("s1", ⟨some "s1",
                { context := ⟨"u1", "beginner", [], 0, 0⟩, startTime := 5,
                  lastActive := 5, isActive := true, messages := [],
                  endTime := none }⟩)])],
            problems := [], problemUsage := [], evaluations := [], hints := [],
            studyPlans := [], sessionHistory := [] }
          ⟨some "m1", some "end", .sessionReq none (some "s1") none⟩ =
        .ok (resp, s', e') ∧
      alookup "s1" (getColl s'.sessions "sessions") =
        some { id := some "s1",
               val := { context := ⟨"u1", "beginner", [], 0, 0⟩, startTime := 5,
                        lastActive := 5, isActive := false, messages := [],
                        endTime := some 77 } } ∧
      (∀ k, k ≠ "s1" → alookup k (getColl s'.sessions "sessions") =
        alookup k (getColl ([("sessions",
          [("s1", (⟨some "s1",
            { context := ⟨"u1", "beginner", [], 0, 0⟩, startTime := 5,
              lastActive := 5, isActive := true, messages := [],
              endTime := none }⟩ : Entity SessionData))])] : Store SessionData)
          "sessions")) ∧
      s'.problems = [] ∧ s'.evaluations = [] ∧
      s'.hints = [] ∧ s'.studyPlans = [] ∧
      s'.sessionHistory = [] ∧ s'.problemUsage = [] ∧
      resp.type = some "end" ∧ resp.id = some "m1") :=
  ⟨rfl,
    endSession_frame
      { counter := 0, now := 77, randSeq := fun _ => 0, randIdx := 0, dbFail := false }
      { sessions := [("sessions",
          [("s1", ⟨some "s1",
            { context := ⟨"u1", "beginner", [], 0, 0⟩, startTime := 5,
              lastActive := 5, isActive := true, messages := [],
              endTime := none }⟩)])],
        problems := [], problemUsage := [], evaluations := [], hints := [],
        studyPlans := [], sessionHistory := [] }
      none none (some "m1") "s1"
      ⟨some "s1",
        { context := ⟨"u1", "beginner", [], 0, 0⟩, startTime := 5,
          lastActive := 5, isActive := true, messages := [], endTime := none }⟩
      rfl (by decide) (by decide) rfl⟩

/-- C4: `put` followed by `get` of the (possibly generated) id returns
the stored entity, which is the item itself whenever the item already
carried an id; `delete` followed by `get` returns null.  Stated over the
whole schema-less store: any collection name, any record type. -/
theorem store_roundTrip {α : Type} (e : Env) (st : Store α) (name : String)
    (item : Entity α) (h : e.dbFail = false) :
    (∃ st' e', persistToIndexedDB e st name item = .ok (st', e') ∧
      retrieveFromIndexedDB e' st' name ((jsOrFresh item.id e).1) =
        .ok (some { item with id := some ((jsOrFresh item.id e).1) }) ∧
      (strFalsy item.id = false →
        retrieveFromIndexedDB e' st' name ((jsOrFresh item.id e).1) = .ok (some item))) ∧
    (∀ (st2 : Store α) (k : String), ∃ st3,
      deleteFromIndexedDB e st2 name k = .ok st3 ∧
      retrieveFromIndexedDB e st3 name k = .ok none) := by
  have hf : (jsOrFresh item.id e).2.dbFail = false := by rw [jsOrFresh_dbFail, h]
  constructor
  · refine ⟨setColl st name
        (aset (jsOrFresh item.id e).1
          { item with id := some (jsOrFresh item.id e).1 } (getColl st name)),
      (jsOrFresh item.id e).2, ?_, ?_, ?_⟩
    · rw [persistToIndexedDB, h]
      simp
    · rw [retrieveFromIndexedDB, hf]
      simp [getColl, setColl, alookup_aset_self]
    · intro hs
      have hid : some ((jsOrFresh item.id e).1) = item.id := by
        rw [jsOrFresh, hs]
        simpa using jsOr_of_not_falsy item.id "" hs
      have heq : ({ item with id := some ((jsOrFresh item.id e).1) } : Entity α) = item := by
        cases item with
        | mk i v => simpa using hid
      rw [retrieveFromIndexedDB, hf]
      simp only [getColl, setColl, heq]
      simp [alookup_aset_self]
  · intro st2 k
    refine ⟨setColl st2 name (aerase k (getColl st2 name)), ?_, ?_⟩
    · rw [deleteFromIndexedDB, h]
      simp
    · rw [retrieveFromIndexedDB, h]
      simp [getColl, setColl, alookup_aset_self, alookup_aerase_self]

/-- Witness for `store_roundTrip` at a concrete store and item. -/
theorem store_roundTrip_witness :
    ({ counter := 0, now := 0, randSeq := fun _ => 0, randIdx := 0,
       dbFail := false : Env }).dbFail = false ∧
    ((∃ st' e', persistToIndexedDB
        { counter := 0, now := 0, randSeq := fun _ => 0, randIdx := 0, dbFail := false }
        ([] : Store Nat) "sessions" ⟨some "a", 7⟩ = .ok (st', e') ∧
      retrieveFromIndexedDB e' st' "sessions"
          ((jsOrFresh (some "a")
            { counter := 0, now := 0, randSeq := fun _ => 0, randIdx := 0, dbFail := false }).1) =
        .ok (some { id := some ((jsOrFresh (some "a")
            { counter := 0, now := 0, randSeq := fun _ => 0, randIdx := 0, dbFail := false }).1),
                    val := 7 }) ∧
      (strFalsy (some "a") = false →
        retrieveFromIndexedDB e' st' "sessions"
            ((jsOrFresh (some "a")
              { counter := 0, now := 0, randSeq := fun _ => 0, randIdx := 0, dbFail := false }).1) =
          .ok (some ⟨some "a", 7⟩))) ∧
    (∀ (st2 : Store Nat) (k : String), ∃ st3,
      deleteFromIndexedDB
        { counter := 0, now := 0, randSeq := fun _ => 0, randIdx := 0, dbFail := false }
        st2 "sessions" k = .ok st3 ∧
      retrieveFromIndexedDB
        { counter := 0, now := 0, randSeq := fun _ => 0, randIdx := 0, dbFail := false }
        st3 "sessions" k = .ok none)) :=
  ⟨rfl, store_roundTrip _ _ "sessions" ⟨some "a", 7⟩ rfl⟩

/-- The mergeSort comparator used by `fetchHistory` is transitive. -/
theorem startTimeDescLe_trans (a b c : Entity SessionHistoryData)
    (h1 : decide (b.val.startTime ≤ a.val.startTime) = true)
    (h2 : decide (c.val.startTime ≤ b.val.startTime) = true) :
    decide (c.val.startTime ≤ a.val.startTime) = true := by
  simp only [decide_eq_true_eq] at h1 h2 ⊢
  omega

/-- The mergeSort comparator used by `fetchHistory` is total. -/
theorem startTimeDescLe_total (a b : Entity SessionHistoryData) :
    (decide (b.val.startTime ≤ a.val.startTime) ||
     decide (a.val.startTime ≤ b.val.startTime)) = true := by
  simp only [Bool.or_eq_true, decide_eq_true_eq]
  omega

/-- C7: a `fetch` request carrying only a `userId` responds with exactly
the stored `session_history` records whose `userId` field equals the
requested one — a permutation of the user-filtered collection, hence
none of any other user\x27s records — sorted by `startTime` in descending
order, and the store and environment are untouched. -/
theorem fetchHistory_filter_sort (e : Env) (s : SystemState)
    (mid : Option String) (uid : String)
    (hdb : e.dbFail = false) (huid : uid ≠ "") :
    ∃ l : List (Entity SessionHistoryData),
      HistoryAgent.handleMessage e s
          ⟨mid, some "fetch", .histReq (some uid) none none none⟩ =
        .ok (createResponse ⟨mid, some "fetch", .histReq (some uid) none none none⟩
              "fetch" (.histFetchResp uid (.many l)), s, e) ∧
      l.Perm (((getColl s.sessionHistory "session_history").map (·.2)).filter
        (fun h => decide (h.val.userId = uid))) ∧
      l.Pairwise (fun a b => b.val.startTime ≤ a.val.startTime) := by
  refine ⟨HistoryAgent.sortByStartTimeDesc
    (((getColl s.sessionHistory "session_history").map (·.2)).filter
      (fun h => decide (h.val.userId = uid))), ?_, ?_, ?_⟩
  · simp [HistoryAgent.handleMessage, HistoryAgent.fetchHistory,
      retrieveAllFromIndexedDB, hdb, strFalsy, jsOr, huid]
  · exact List.mergeSort_perm _ _
  · have hs := @List.sorted_mergeSort (Entity SessionHistoryData)
      (fun a b => decide (b.val.startTime ≤ a.val.startTime))
      startTimeDescLe_trans startTimeDescLe_total
      (((getColl s.sessionHistory "session_history").map (·.2)).filter
        (fun h => decide (h.val.userId = uid)))
    exact hs.imp (fun h => by simpa using h)

/-- Witness for `fetchHistory_filter_sort`: a store holding two records
for "u1" (startTime 100 and 200) and one for "u2". -/
theorem fetchHistory_filter_sort_witness :
    (({ counter := 0, now := 0, randSeq := fun _ => 0, randIdx := 0,
        dbFail := false : Env }).dbFail = false) ∧
    (∃ l : List (Entity SessionHistoryData),
      HistoryAgent.handleMessage
          { counter := 0, now := 0, randSeq := fun _ => 0, randIdx := 0, dbFail := false }
          { sessions := [], problems := [], problemUsage := [], evaluations := [],
            hints := [], studyPlans := [],
            sessionHistory := [("session_history",
              [("h1", ⟨some "h1", ⟨"s1", "u1", 100, 150, [], none⟩⟩),
               ("h2", ⟨some "h2", ⟨"s2", "u1", 200, 250, [], none⟩⟩),
               ("h3", ⟨some "h3", ⟨"s3", "u2", 150, 160, [], none⟩⟩)])] }
          ⟨some "m1", some "fetch", .histReq (some "u1") none none none⟩ =
        .ok (createResponse ⟨some "m1", some "fetch", .histReq (some "u1") none none none⟩
              "fetch" (.histFetchResp "u1" (.many l)),
            { sessions := [], problems := [], problemUsage := [], evaluations := [],
              hints := [], studyPlans := [],
              sessionHistory := [("session_history",
                [("h1", ⟨some "h1", ⟨"s1", "u1", 100, 150, [], none⟩⟩),
                 ("h2", ⟨some "h2", ⟨"s2", "u1", 200, 250, [], none⟩⟩),
                 ("h3", ⟨some "h3", ⟨"s3", "u2", 150, 160, [], none⟩⟩)])] },
            { counter := 0, now := 0, randSeq := fun _ => 0, randIdx := 0, dbFail := false }) ∧
      l.Perm (((getColl ([("session_history",
              [("h1", (⟨some "h1", ⟨"s1", "u1", 100, 150, [], none⟩⟩ : Entity SessionHistoryData)),
               ("h2", ⟨some "h2", ⟨"s2", "u1", 200, 250, [], none⟩⟩),
               ("h3", ⟨some "h3", ⟨"s3", "u2", 150, 160, [], none⟩⟩)])] : Store SessionHistoryData)
          "session_history").map (·.2)).filter
        (fun h => decide (h.val.userId = "u1"))) ∧
      l.Pairwise (fun a b => b.val.startTime ≤ a.val.startTime)) :=
  ⟨rfl, fetchHistory_filter_sort _ _ (some "m1") "u1" rfl (by decide)⟩

/-- C10: when reading the `session_history` collection fails, the fetch
handler swallows the store failure and responds successfully with an
empty history array — a `fetch`-typed response, not an error-typed one —
indistinguishable from a user with no stored sessions. -/
theorem fetchHistory_swallows_failure (e : Env) (s : SystemState)
    (mid : Option String) (uid : String) (sid : Option String)
    (tr : Option TimeRange) (hp : Option HistPayload)
    (hdb : e.dbFail = true) (huid : uid ≠ "") :
    HistoryAgent.handleMessage e s ⟨mid, some "fetch", .histReq (some uid) sid tr hp⟩ =
      .ok (createResponse ⟨mid, some "fetch", .histReq (some uid) sid tr hp⟩ "fetch"
            (.histFetchResp uid (.many [])), s, e) := by
  cases hs : strFalsy sid <;>
    simp [HistoryAgent.handleMessage, HistoryAgent.fetchHistory,
      retrieveAllFromIndexedDB, hdb, strFalsy, jsOr, huid, hs]

/-- Witness for `fetchHistory_swallows_failure` at a failing store. -/
theorem fetchHistory_swallows_failure_witness :
    (({ counter := 0, now := 0, randSeq := fun _ => 0, randIdx := 0,
        dbFail := true : Env }).dbFail = true) ∧
    HistoryAgent.handleMessage
        { counter := 0, now := 0, randSeq := fun _ => 0, randIdx := 0, dbFail := true }
        { sessions := [], problems := [], problemUsage := [], evaluations := [],
          hints := [], studyPlans := [],
          sessionHistory := [("session_history",
            [("h1", ⟨some "h1", ⟨"s1", "u1", 100, 150, [], none⟩⟩)])] }
        ⟨some "m9", some "fetch", .histReq (some "u1") none none none⟩ =
      .ok (createResponse ⟨some "m9", some "fetch", .histReq (some "u1") none none none⟩
            "fetch" (.histFetchResp "u1" (.many [])),
          { sessions := [], problems := [], problemUsage := [], evaluations := [],
            hints := [], studyPlans := [],
            sessionHistory := [("session_history",
              [("h1", ⟨some "h1", ⟨"s1", "u1", 100, 150, [], none⟩⟩)])] },
          { counter := 0, now := 0, randSeq := fun _ => 0, randIdx := 0, dbFail := true }) :=
  ⟨rfl, fetchHistory_swallows_failure _ _ (some "m9") "u1" none none none rfl (by decide)⟩


theorem createHint_level (e : Env) (code language : String)
    (problem : Entity ProblemData) (hintsProvided difficultyLevel : Nat) :
    (HintAgent.createHint e code language problem hintsProvided difficultyLevel).1.level =
      min (difficultyLevel + hintsProvided) 5 := rfl

theorem createHint_id (e : Env) (code language : String)
    (problem : Entity ProblemData) (hintsProvided difficultyLevel : Nat) :
    (HintAgent.createHint e code language problem hintsProvided difficultyLevel).1.id =
      uuidGen e.counter := rfl

/-- Characterization of a successful `generateHint` run: the response is
a `provide`-typed `createResponse` carrying a hint of level
`min(difficultyLevel + hintsProvided, 5)`; only the `hints` collection
changes and the environment keeps its failure flag. -/
theorem generateHint_run (e : Env) (s : SystemState) (mid : Option String)
    (code language problemId userId sessionId : String)
    (hintsProvided difficultyLevel : Nat) (problem : Entity ProblemData)
    (hdb : e.dbFail = false)
    (hv : ¬ (code = "" ∨ language = "" ∨ problemId = "" ∨ userId = "" ∨ sessionId = ""))
    (hprob : alookup problemId (getColl s.problems "problems") = some problem) :
    ∃ hint hints e',
      HintAgent.handleMessage e s
          ⟨mid, some "request",
           .hintReq code language problemId userId sessionId hintsProvided difficultyLevel⟩ =
        .ok (createResponse
              ⟨mid, some "request",
               .hintReq code language problemId userId sessionId hintsProvided difficultyLevel⟩
              "provide" (.hintResp hint), { s with hints := hints }, e') ∧
      hint.level = min (difficultyLevel + hintsProvided) 5 ∧
      e'.dbFail = e.dbFail := by
  have hidne : (HintAgent.createHint e code language problem hintsProvided
      difficultyLevel).1.id ≠ "" := by
    rw [createHint_id]
    exact uuidGen_ne_empty e.counter
  have hfal : strFalsy (some ((HintAgent.createHint e code language problem
      hintsProvided difficultyLevel).1.id)) = false := by
    simp [strFalsy, hidne]
  have hdb2 : (HintAgent.createHint e code language problem hintsProvided
      difficultyLevel).2.dbFail = false := hdb
  refine ⟨(HintAgent.createHint e code language problem hintsProvided difficultyLevel).1,
    setColl s.hints "hints"
      (aset ((HintAgent.createHint e code language problem hintsProvided difficultyLevel).1.id)
        ⟨some ((HintAgent.createHint e code language problem hintsProvided difficultyLevel).1.id),
         { problemId := problemId, userId := userId, sessionId := sessionId,
           hint := (HintAgent.createHint e code language problem hintsProvided difficultyLevel).1,
           timestamp := (HintAgent.createHint e code language problem hintsProvided
             difficultyLevel).2.now }⟩
        (getColl s.hints "hints")),
    (HintAgent.createHint e code language problem hintsProvided difficultyLevel).2,
    ?_, createHint_level e code language problem hintsProvided difficultyLevel, rfl⟩
  simp [HintAgent.handleMessage, HintAgent.generateHint, HintAgent.getProblemDetails,
    retrieveFromIndexedDB, hdb, hprob, persistToIndexedDB, hdb2, jsOrFresh, hfal,
    jsOr, hidne, if_neg hv]

/-- C5: a well-formed hint request (non-empty code, language, problemId,
userId, sessionId) whose problem is stored is answered with a `provide`
response whose hint has `level = min(difficultyLevel + hintsProvided, 5)`;
consequently, running a second request on the resulting state for the
same problem, user and session with `hintsProvided = 0` then `1` yields
non-decreasing levels. -/
theorem requestHint_level (e : Env) (s : SystemState) (mid mid2 : Option String)
    (code language problemId userId sessionId : String)
    (hintsProvided difficultyLevel : Nat) (problem : Entity ProblemData)
    (hdb : e.dbFail = false)
    (hv : ¬ (code = "" ∨ language = "" ∨ problemId = "" ∨ userId = "" ∨ sessionId = ""))
    (hprob : alookup problemId (getColl s.problems "problems") = some problem) :
    (∃ hint hints e',
      HintAgent.handleMessage e s
          ⟨mid, some "request",
           .hintReq code language problemId userId sessionId hintsProvided difficultyLevel⟩ =
        .ok (createResponse
              ⟨mid, some "request",
               .hintReq code language problemId userId sessionId hintsProvided difficultyLevel⟩
              "provide" (.hintResp hint), { s with hints := hints }, e') ∧
      hint.level = min (difficultyLevel + hintsProvided) 5) ∧
    (∃ hint1 hints1 e1 hint2 hints2 e2,
      HintAgent.handleMessage e s
          ⟨mid, some "request",
           .hintReq code language problemId userId sessionId 0 difficultyLevel⟩ =
        .ok (createResponse
              ⟨mid, some "request",
               .hintReq code language problemId userId sessionId 0 difficultyLevel⟩
              "provide" (.hintResp hint1), { s with hints := hints1 }, e1) ∧
      HintAgent.handleMessage e1 { s with hints := hints1 }
          ⟨mid2, some "request",
           .hintReq code language problemId userId sessionId 1 difficultyLevel⟩ =
        .ok (createResponse
              ⟨mid2, some "request",
               .hintReq code language problemId userId sessionId 1 difficultyLevel⟩
              "provide" (.hintResp hint2), { s with hints := hints2 }, e2) ∧
      hint1.level ≤ hint2.level) := by
  constructor
  · obtain ⟨hint, hints, e', hrun, hlev, _⟩ :=
      generateHint_run e s mid code language problemId userId sessionId
        hintsProvided difficultyLevel problem hdb hv hprob
    exact ⟨hint, hints, e', hrun, hlev⟩
  · obtain ⟨hint1, hints1, e1, hrun1, hlev1, hdb1⟩ :=
      generateHint_run e s mid code language problemId userId sessionId
        0 difficultyLevel problem hdb hv hprob
    have hdb1' : e1.dbFail = false := by rw [hdb1, hdb]
    obtain ⟨hint2, hints2, e2, hrun2, hlev2, _⟩ :=
      generateHint_run e1 { s with hints := hints1 } mid2 code language problemId
        userId sessionId 1 difficultyLevel problem hdb1' hv hprob
    refine ⟨hint1, hints1, e1, hint2, hints2, e2, hrun1, hrun2, ?_⟩
    rw [hlev1, hlev2]
    exact min_le_min (Nat.add_le_add_left (by omega) _) le_rfl

/-- Witness for `requestHint_level` at a concrete stored problem. -/
theorem requestHint_level_witness :
    (({ counter := 0, now := 3, randSeq := fun _ => 0, randIdx := 0,
        dbFail := false : Env }).dbFail = false) ∧
    (¬ (("x" : String) = "" ∨ ("javascript" : String) = "" ∨ ("p1" : String) = "" ∨
        ("u1" : String) = "" ∨ ("s1" : String) = "")) ∧
    ((∃ hint hints e',
      HintAgent.handleMessage
          { counter := 0, now := 3, randSeq := fun _ => 0, randIdx := 0, dbFail := false }
          { sessions := [], problems := [("problems",
              [("p1", ⟨some "p1",
                { title := "T", description := "d", difficulty := "easy",
                  category := ["arrays"], inputFormat := "i", outputFormat := "o",
                  constraints := [], examples := [], timeComplexity := "O(n)",
                  spaceComplexity := "O(n)", tags := some ["arrays"] }⟩)])],
            problemUsage := [], evaluations := [], hints := [], studyPlans := [],
            sessionHistory := [] }
          ⟨some "m1", some "request", .hintReq "x" "javascript" "p1" "u1" "s1" 0 2⟩ =
        .ok (createResponse
              ⟨some "m1", some "request", .hintReq "x" "javascript" "p1" "u1" "s1" 0 2⟩
              "provide" (.hintResp hint),
            { sessions := [], problems := [("problems",
                [("p1", ⟨some "p1",
                  { title := "T", description := "d", difficulty := "easy",
                    category := ["arrays"], inputFormat := "i", outputFormat := "o",
                    constraints := [], examples := [], timeComplexity := "O(n)",
                    spaceComplexity := "O(n)", tags := some ["arrays"] }⟩)])],
              problemUsage := [], evaluations := [], hints := hints, studyPlans := [],
              sessionHistory := [] }, e') ∧
      hint.level = min (2 + 0) 5) ∧
    (∃ hint1 hints1 e1 hint2 hints2 e2,
      HintAgent.handleMessage
          { counter := 0, now := 3, randSeq := fun _ => 0, randIdx := 0, dbFail := false }
          { sessions := [], problems := [("problems",
              [("p1", ⟨some "p1",
                { title := "T", description := "d", difficulty := "easy",
                  category := ["arrays"], inputFormat := "i", outputFormat := "o",
                  constraints := [], examples := [], timeComplexity := "O(n)",
                  spaceComplexity := "O(n)", tags := some ["arrays"] }⟩)])],
            problemUsage := [], evaluations := [], hints := [], studyPlans := [],
            sessionHistory := [] }
          ⟨some "m1", some "request", .hintReq "x" "javascript" "p1" "u1" "s1" 0 2⟩ =
        .ok (createResponse
              ⟨some "m1", some "request", .hintReq "x" "javascript" "p1" "u1" "s1" 0 2⟩
              "provide" (.hintResp hint1),
            { sessions := [], problems := [("problems",
                [("p1", ⟨some "p1",
                  { title := "T", description := "d", difficulty := "easy",
                    category := ["arrays"], inputFormat := "i", outputFormat := "o",
                    constraints := [], examples := [], timeComplexity := "O(n)",
                    spaceComplexity := "O(n)", tags := some ["arrays"] }⟩)])],
              problemUsage := [], evaluations := [], hints := hints1, studyPlans := [],
              sessionHistory := [] }, e1) ∧
      HintAgent.handleMessage e1
          { sessions := [], problems := [("problems",
              [("p1", ⟨some "p1",
                { title := "T", description := "d", difficulty := "easy",
                  category := ["arrays"], inputFormat := "i", outputFormat := "o",
                  constraints := [], examples := [], timeComplexity := "O(n)",
                  spaceComplexity := "O(n)", tags := some ["arrays"] }⟩)])],
            problemUsage := [], evaluations := [], hints := hints1, studyPlans := [],
            sessionHistory := [] }
          ⟨some "m2", some "request", .hintReq "x" "javascript" "p1" "u1" "s1" 1 2⟩ =
        .ok (createResponse
              ⟨some "m2", some "request", .hintReq "x" "javascript" "p1" "u1" "s1" 1 2⟩
              "provide" (.hintResp hint2),
            { sessions := [], problems := [("problems",
                [("p1", ⟨some "p1",
                  { title := "T", description := "d", difficulty := "easy",
                    category := ["arrays"], inputFormat := "i", outputFormat := "o",
                    constraints := [], examples := [], timeComplexity := "O(n)",
                    spaceComplexity := "O(n)", tags := some ["arrays"] }⟩)])],
              problemUsage := [], evaluations := [], hints := hints2, studyPlans := [],
              sessionHistory := [] }, e2) ∧
      hint1.level ≤ hint2.level)) :=
  ⟨rfl, by decide,
    requestHint_level
      { counter := 0, now := 3, randSeq := fun _ => 0, randIdx := 0, dbFail := false }
      { sessions := [], problems := [("problems",
          [("p1", ⟨some "p1",
            { title := "T", description := "d", difficulty := "easy",
              category := ["arrays"], inputFormat := "i", outputFormat := "o",
              constraints := [], examples := [], timeComplexity := "O(n)",
              spaceComplexity := "O(n)", tags := some ["arrays"] }⟩)])],
        problemUsage := [], evaluations := [], hints := [], studyPlans := [],
        sessionHistory := [] }
      (some "m1") (some "m2") "x" "javascript" "p1" "u1" "s1" 0 2
      ⟨some "p1",
        { title := "T", description := "d", difficulty := "easy",
          category := ["arrays"], inputFormat := "i", outputFormat := "o",
          constraints := [], examples := [], timeComplexity := "O(n)",
          spaceComplexity := "O(n)", tags := some ["arrays"] }⟩
      rfl (by decide) (by decide)⟩

theorem round_mono_q {x y : ℚ} (h : x ≤ y) : round x ≤ round y := by
  rw [round_eq, round_eq]
  exact Int.floor_le_floor (by linarith)

theorem round_cast_bounds {x : ℚ} (h0 : 0 ≤ x) (h1 : x ≤ 100) :
    (0 : ℚ) ≤ ((round x : ℤ) : ℚ) ∧ ((round x : ℤ) : ℚ) ≤ 100 := by
  have hz : round (0 : ℚ) = 0 := by
    rw [show (0 : ℚ) = ((0 : ℤ) : ℚ) by norm_num, round_intCast]
  have hh : round (100 : ℚ) = 100 := by
    rw [show (100 : ℚ) = ((100 : ℤ) : ℚ) by norm_num, round_intCast]
  have l0 : (0 : ℤ) ≤ round x := by
    have := round_mono_q h0
    rwa [hz] at this
  have l1 : round x ≤ 100 := by
    have := round_mono_q h1
    rwa [hh] at this
  constructor
  · exact_mod_cast l0
  · exact_mod_cast l1

theorem evaluateCorrectness_bounds (code : String) (problem : Entity ProblemData) :
    0 ≤ EvaluationAgent.evaluateCorrectness code problem ∧
    EvaluationAgent.evaluateCorrectness code problem ≤ 100 := by
  unfold EvaluationAgent.evaluateCorrectness
  constructor
  · refine le_min ?_ (by norm_num)
    split_ifs <;> positivity
  · exact min_le_right _ _

theorem evaluateTimeComplexity_bounds (code : String) (problem : Entity ProblemData) :
    0 ≤ (EvaluationAgent.evaluateTimeComplexity code problem).score ∧
    (EvaluationAgent.evaluateTimeComplexity code problem).score ≤ 100 := by
  simp only [EvaluationAgent.evaluateTimeComplexity]
  split_ifs <;> constructor <;> norm_num

theorem evaluateSpaceComplexity_bounds (code : String) (problem : Entity ProblemData) :
    0 ≤ (EvaluationAgent.evaluateSpaceComplexity code problem).score ∧
    (EvaluationAgent.evaluateSpaceComplexity code problem).score ≤ 100 := by
  simp only [EvaluationAgent.evaluateSpaceComplexity]
  split_ifs <;> constructor <;> norm_num

theorem evaluateEdgeCases_covered_le (code : String) (problem : Entity ProblemData) :
    (EvaluationAgent.evaluateEdgeCases code problem).covered.length ≤ 5 := by
  simp only [EvaluationAgent.evaluateEdgeCases]
  split_ifs <;> simp

theorem evaluateEdgeCases_score_bounds (code : String) (problem : Entity ProblemData) :
    0 ≤ (EvaluationAgent.evaluateEdgeCases code problem).score ∧
    (EvaluationAgent.evaluateEdgeCases code problem).score ≤ 100 := by
  have hc := evaluateEdgeCases_covered_le code problem
  have hscore : (EvaluationAgent.evaluateEdgeCases code problem).score =
      ((round (((EvaluationAgent.evaluateEdgeCases code problem).covered.length : ℚ) /
        ((EvaluationAgent.commonEdgeCases.length : ℕ) : ℚ) * 100) : ℤ) : ℚ) := rfl
  have hlen : ((EvaluationAgent.commonEdgeCases.length : ℕ) : ℚ) = 5 := by norm_num [EvaluationAgent.commonEdgeCases]
  rw [hscore, hlen]
  apply round_cast_bounds
  · positivity
  · have : ((EvaluationAgent.evaluateEdgeCases code problem).covered.length : ℚ) ≤ 5 := by
      exact_mod_cast hc
    linarith

theorem evaluateCodeQuality_bounds (code language : String) :
    (0 ≤ (EvaluationAgent.evaluateCodeQuality code language).readability ∧
      (EvaluationAgent.evaluateCodeQuality code language).readability ≤ 100) ∧
    (0 ≤ (EvaluationAgent.evaluateCodeQuality code language).maintainability ∧
      (EvaluationAgent.evaluateCodeQuality code language).maintainability ≤ 100) ∧
    (0 ≤ (EvaluationAgent.evaluateCodeQuality code language).bestPractices ∧
      (EvaluationAgent.evaluateCodeQuality code language).bestPractices ≤ 100) := by
  unfold EvaluationAgent.evaluateCodeQuality
  refine ⟨⟨?_, min_le_right _ _⟩, ⟨?_, min_le_right _ _⟩, ⟨?_, min_le_right _ _⟩⟩ <;>
    (refine le_min ?_ (by norm_num); split_ifs <;> norm_num)

/-- C9: every sub-score produced by `performEvaluation` lies within 0–100
inclusive — correctness, both complexity scores, the edge-case score and
each code-quality facet — and the overall score, the rounded weighted
combination `0.4·correctness + 0.15·time + 0.15·space + 0.15·edge +
0.15·mean(readability, maintainability, bestPractices)`, also lies
within 0–100 inclusive. -/
theorem performEvaluation_bounds (code language : String)
    (problem : Entity ProblemData) :
    (0 ≤ (EvaluationAgent.performEvaluation code language problem).correctness ∧
      (EvaluationAgent.performEvaluation code language problem).correctness ≤ 100) ∧
    (0 ≤ (EvaluationAgent.performEvaluation code language problem).timeComplexity.score ∧
      (EvaluationAgent.performEvaluation code language problem).timeComplexity.score ≤ 100) ∧
    (0 ≤ (EvaluationAgent.performEvaluation code language problem).spaceComplexity.score ∧
      (EvaluationAgent.performEvaluation code language problem).spaceComplexity.score ≤ 100) ∧
    (0 ≤ (EvaluationAgent.performEvaluation code language problem).edgeCases.score ∧
      (EvaluationAgent.performEvaluation code language problem).edgeCases.score ≤ 100) ∧
    (0 ≤ (EvaluationAgent.performEvaluation code language problem).codeQuality.readability ∧
      (EvaluationAgent.performEvaluation code language problem).codeQuality.readability ≤ 100) ∧
    (0 ≤ (EvaluationAgent.performEvaluation code language problem).codeQuality.maintainability ∧
      (EvaluationAgent.performEvaluation code language problem).codeQuality.maintainability ≤ 100) ∧
    (0 ≤ (EvaluationAgent.performEvaluation code language problem).codeQuality.bestPractices ∧
      (EvaluationAgent.performEvaluation code language problem).codeQuality.bestPractices ≤ 100) ∧
    (0 ≤ (EvaluationAgent.performEvaluation code language problem).overallScore ∧
      (EvaluationAgent.performEvaluation code language problem).overallScore ≤ 100) := by
  have hco := evaluateCorrectness_bounds code problem
  have hti := evaluateTimeComplexity_bounds code problem
  have hsp := evaluateSpaceComplexity_bounds code problem
  have hed := evaluateEdgeCases_score_bounds code problem
  have hq := evaluateCodeQuality_bounds code language
  have h1 : (EvaluationAgent.performEvaluation code language problem).correctness =
    EvaluationAgent.evaluateCorrectness code problem := rfl
  have h2 : (EvaluationAgent.performEvaluation code language problem).timeComplexity =
    EvaluationAgent.evaluateTimeComplexity code problem := rfl
  have h3 : (EvaluationAgent.performEvaluation code language problem).spaceComplexity =
    EvaluationAgent.evaluateSpaceComplexity code problem := rfl
  have h4 : (EvaluationAgent.performEvaluation code language problem).edgeCases =
    EvaluationAgent.evaluateEdgeCases code problem := rfl
  have h5 : (EvaluationAgent.performEvaluation code language problem).codeQuality =
    EvaluationAgent.evaluateCodeQuality code language := rfl
  have h6 : (EvaluationAgent.performEvaluation code language problem).overallScore =
    ((round ((EvaluationAgent.evaluateCorrectness code problem) * (0.4 : ℚ) +
      (EvaluationAgent.evaluateTimeComplexity code problem).score * (0.15 : ℚ) +
      (EvaluationAgent.evaluateSpaceComplexity code problem).score * (0.15 : ℚ) +
      (EvaluationAgent.evaluateEdgeCases code problem).score * (0.15 : ℚ) +
      ((EvaluationAgent.evaluateCodeQuality code language).readability +
       (EvaluationAgent.evaluateCodeQuality code language).maintainability +
       (EvaluationAgent.evaluateCodeQuality code language).bestPractices) / 3 *
        (0.15 : ℚ)) : ℤ) : ℚ) := rfl
  rw [h1, h2, h3, h4, h5, h6]
  refine ⟨hco, hti, hsp, hed, hq.1, hq.2.1, hq.2.2, ?_⟩
  apply round_cast_bounds
  · obtain ⟨c0, _⟩ := hco
    obtain ⟨t0, _⟩ := hti
    obtain ⟨s0, _⟩ := hsp
    obtain ⟨e0, _⟩ := hed
    obtain ⟨⟨r0, _⟩, ⟨m0, _⟩, ⟨b0, _⟩⟩ := hq
    positivity
  · obtain ⟨_, c1⟩ := hco
    obtain ⟨_, t1⟩ := hti
    obtain ⟨_, s1⟩ := hsp
    obtain ⟨_, e1⟩ := hed
    obtain ⟨⟨_, r1⟩, ⟨_, m1⟩, ⟨_, b1⟩⟩ := hq
    norm_num
    linarith

theorem aset_eq_append (k : String) (v : β) (l : List (String × β))
    (h : alookup k l = none) : aset k v l = l ++ [(k, v)] := by
  induction l with
  | nil => simp [aset]
  | cons p rest ih =>
    rw [alookup] at h
    by_cases hp : p.1 = k
    · simp [hp] at h
    · simp only [aset, hp, if_false, List.cons_append]
      rw [ih (by simpa [hp] using h)]

theorem distributeEvals_env (l : List CodeEvaluation) :
    ∀ (e : Env) (m : List (String × List CodeEvaluation)),
      (StudyPlanAgent.distributeEvals e l m).2.counter = e.counter ∧
      (StudyPlanAgent.distributeEvals e l m).2.dbFail = e.dbFail ∧
      (StudyPlanAgent.distributeEvals e l m).2.now = e.now := by
  induction l with
  | nil => intro e m; exact ⟨rfl, rfl, rfl⟩
  | cons ev rest ih =>
    intro e m
    simpa [StudyPlanAgent.distributeEvals, Env.draw] using ih _ _

theorem generatePerformanceMetrics_env (e : Env) (l : List CodeEvaluation) :
    (StudyPlanAgent.generatePerformanceMetrics e l).2.counter = e.counter ∧
    (StudyPlanAgent.generatePerformanceMetrics e l).2.dbFail = e.dbFail ∧
    (StudyPlanAgent.generatePerformanceMetrics e l).2.now = e.now := by
  rw [StudyPlanAgent.generatePerformanceMetrics]
  split
  · exact ⟨rfl, rfl, rfl⟩
  · exact distributeEvals_env l e _

/-- Characterization of a successful `generate` run of the study-plan
agent: the regenerated plan (whose `userId` is the requester's) is
persisted under the fresh uuid `uuidGen e.counter` — the `StudyPlan`
record has no `id` field — and only the `study_plans` store changes. -/
theorem generateStudyPlan_run (e : Env) (s : SystemState) (mid : Option String)
    (uid : String) (sids : Option (List String))
    (hdb : e.dbFail = false) (huid : uid ≠ "") :
    ∃ (plan : StudyPlanData) (e' : Env),
      StudyPlanAgent.handleMessage e s
          ⟨mid, some "generate", .planReq uid sids none none⟩ =
        .ok (createResponse ⟨mid, some "generate", .planReq uid sids none none⟩
              "generate" (.planResp uid plan),
            { s with studyPlans := (setColl s.studyPlans "study_plans"
                (aset (uuidGen e.counter) ⟨some (uuidGen e.counter), plan⟩
                  (getColl s.studyPlans "study_plans"))) }, e') ∧
      plan.userId = uid ∧ e'.counter = e.counter + 1 ∧ e'.dbFail = false := by
  obtain ⟨hc, hf, hn⟩ := generatePerformanceMetrics_env e
    (StudyPlanAgent.getEvaluationsForUser e s uid sids)
  set R := StudyPlanAgent.generatePerformanceMetrics e
    (StudyPlanAgent.getEvaluationsForUser e s uid sids) with hR
  have hf2 : R.2.dbFail = false := by rw [hf, hdb]
  refine ⟨{ userId := uid, createdAt := R.2.now, metrics := R.1,
            recommendations := StudyPlanAgent.generateRecommendations R.1,
            milestones := StudyPlanAgent.generateMilestones R.2 R.1
              (StudyPlanAgent.generateRecommendations R.1),
            lastUpdated := none },
          (R.2.fresh).2, ?_, rfl, ?_, ?_⟩
  · simp [StudyPlanAgent.handleMessage, StudyPlanAgent.generateStudyPlan, huid,
      persistToIndexedDB, hf2, jsOrFresh, strFalsy, Env.fresh, ← hR, hc]
  · show R.2.counter + 1 = e.counter + 1
    rw [hc]
  · show R.2.dbFail = false
    exact hf2

/-- Counterexample to C6 as stated: starting from an empty store, two
successive `generate` requests for "u1" leave TWO plans for that user in
`study_plans`, not one.  `StudyPlan` has no `id` field, so each persist
draws a fresh uuid key and the previous plan is not overwritten. -/
theorem generateStudyPlan_overwrite_cex :
    ∃ r1 s1 e1 r2 s2 e2,
      StudyPlanAgent.handleMessage
          { counter := 0, now := 0, randSeq := fun _ => 0, randIdx := 0, dbFail := false }
          { sessions := [], problems := [], problemUsage := [], evaluations := [],
            hints := [], studyPlans := [], sessionHistory := [] }
          ⟨some "g1", some "generate", .planReq "u1" none none none⟩ =
        .ok (r1, s1, e1) ∧
      StudyPlanAgent.handleMessage e1 s1
          ⟨some "g2", some "generate", .planReq "u1" none none none⟩ =
        .ok (r2, s2, e2) ∧
      ((getColl s2.studyPlans "study_plans").filter
        (fun p => decide (p.2.val.userId = "u1"))).length = 2 ∧
      ((getColl s2.studyPlans "study_plans").filter
        (fun p => decide (p.2.val.userId = "u1"))).length ≠ 1 :=
  ⟨_, _, _, _, _, _, rfl, rfl, rfl, by decide⟩

/-- C6 (amended): each successful StudyPlan `generate` request for a
user regenerates the plan from the stored evaluations and persists it as
a NEW record under a freshly generated id, leaving the previous plan in
place; hence, when the two generated uuids are not already keys of the
collection, two successive `generate` requests for the same userId leave
the `study_plans` collection holding two MORE plans for that user than
before (in particular two plans, not one, when starting from empty). -/
theorem generateStudyPlan_appends (e : Env) (s : SystemState)
    (mid mid2 : Option String) (uid : String) (sids sids2 : Option (List String))
    (hdb : e.dbFail = false) (huid : uid ≠ "")
    (h1 : alookup (uuidGen e.counter) (getColl s.studyPlans "study_plans") = none)
    (h2 : alookup (uuidGen (e.counter + 1)) (getColl s.studyPlans "study_plans") = none)
    (hne : uuidGen (e.counter + 1) ≠ uuidGen e.counter) :
    ∃ plan1 s1 e1 plan2 s2 e2,
      StudyPlanAgent.handleMessage e s
          ⟨mid, some "generate", .planReq uid sids none none⟩ =
        .ok (createResponse ⟨mid, some "generate", .planReq uid sids none none⟩
              "generate" (.planResp uid plan1), s1, e1) ∧
      StudyPlanAgent.handleMessage e1 s1
          ⟨mid2, some "generate", .planReq uid sids2 none none⟩ =
        .ok (createResponse ⟨mid2, some "generate", .planReq uid sids2 none none⟩
              "generate" (.planResp uid plan2), s2, e2) ∧
      ((getColl s2.studyPlans "study_plans").filter
          (fun p => decide (p.2.val.userId = uid))).length =
        ((getColl s.studyPlans "study_plans").filter
          (fun p => decide (p.2.val.userId = uid))).length + 2 := by
  obtain ⟨plan1, e1, hrun1, hu1, hc1, hf1⟩ :=
    generateStudyPlan_run e s mid uid sids hdb huid
  set s1 : SystemState :=
    { s with studyPlans := (setColl s.studyPlans "study_plans"
        (aset (uuidGen e.counter) ⟨some (uuidGen e.counter), plan1⟩
          (getColl s.studyPlans "study_plans"))) } with hs1
  obtain ⟨plan2, e2, hrun2, hu2, hc2, hf2⟩ :=
    generateStudyPlan_run e1 s1 mid2 uid sids2 hf1 huid
  have hcoll1 : getColl s1.studyPlans "study_plans" =
      aset (uuidGen e.counter) ⟨some (uuidGen e.counter), plan1⟩
        (getColl s.studyPlans "study_plans") := by
    rw [hs1]
    exact getColl_setColl _ _ _
  have huu : uuidGen e1.counter = uuidGen (e.counter + 1) := by rw [hc1]
  have h2' : alookup (uuidGen e1.counter) (getColl s1.studyPlans "study_plans") = none := by
    rw [huu, hcoll1, alookup_aset_ne _ _ _ _ hne]
    exact h2
  refine ⟨plan1, s1, e1, plan2, _, e2, hrun1, hrun2, ?_⟩
  have hfin : getColl (setColl s1.studyPlans "study_plans"
      (aset (uuidGen e1.counter) ⟨some (uuidGen e1.counter), plan2⟩
        (getColl s1.studyPlans "study_plans"))) "study_plans" =
      ((getColl s.studyPlans "study_plans" ++
        [(uuidGen e.counter, ⟨some (uuidGen e.counter), plan1⟩)]) ++
        [(uuidGen e1.counter, ⟨some (uuidGen e1.counter), plan2⟩)]) := by
    rw [getColl_setColl, aset_eq_append _ _ _ h2', hcoll1,
      aset_eq_append _ _ _ h1]
  show (List.filter _ (getColl (setColl s1.studyPlans "study_plans"
      (aset (uuidGen e1.counter) ⟨some (uuidGen e1.counter), plan2⟩
        (getColl s1.studyPlans "study_plans"))) "study_plans")).length = _
  rw [hfin]
  simp [List.filter_append, hu1, hu2]

/-- Witness for `generateStudyPlan_appends` at an empty concrete store. -/
theorem generateStudyPlan_appends_witness :
    (({ counter := 0, now := 0, randSeq := fun _ => 0, randIdx := 0,
        dbFail := false : Env }).dbFail = false) ∧
    (("u1" : String) ≠ "") ∧
    (∃ plan1 s1 e1 plan2 s2 e2,
      StudyPlanAgent.handleMessage
          { counter := 0, now := 0, randSeq := fun _ => 0, randIdx := 0, dbFail := false }
          { sessions := [], problems := [], problemUsage := [], evaluations := [],
            hints := [], studyPlans := [], sessionHistory := [] }
          ⟨some "g1", some "generate", .planReq "u1" none none none⟩ =
        .ok (createResponse ⟨some "g1", some "generate", .planReq "u1" none none none⟩
              "generate" (.planResp "u1" plan1), s1, e1) ∧
      StudyPlanAgent.handleMessage e1 s1
          ⟨some "g2", some "generate", .planReq "u1" none none none⟩ =
        .ok (createResponse ⟨some "g2", some "generate", .planReq "u1" none none none⟩
              "generate" (.planResp "u1" plan2), s2, e2) ∧
      ((getColl s2.studyPlans "study_plans").filter
          (fun p => decide (p.2.val.userId = "u1"))).length =
        ((getColl
            (({ sessions := [], problems := [], problemUsage := [], evaluations := [],
                hints := [], studyPlans := [], sessionHistory := [] } :
              SystemState)).studyPlans "study_plans").filter
          (fun p => decide (p.2.val.userId = "u1"))).length + 2) :=
  ⟨rfl, by decide,
    generateStudyPlan_appends
      { counter := 0, now := 0, randSeq := fun _ => 0, randIdx := 0, dbFail := false }
      { sessions := [], problems := [], problemUsage := [], evaluations := [],
        hints := [], studyPlans := [], sessionHistory := [] }
      (some "g1") (some "g2") "u1" none none rfl (by decide) rfl rfl (by decide)⟩

theorem sessionHandle_id (e : Env) (s : SystemState) (m resp : Msg)
    (s' : SystemState) (e' : Env)
    (h : SessionAgent.handleMessage e s m = .ok (resp, s', e')) : resp.id = m.id := by
  simp only [SessionAgent.handleMessage, SessionAgent.initializeSession,
    SessionAgent.updateSession, SessionAgent.endSession,
    SessionAgent.persistSession] at h
  repeat' (split at h)
  all_goals
    first
      | (simp only [Except.ok.injEq, Prod.mk.injEq] at h
         obtain ⟨h1, -⟩ := h
         rw [← h1]
         rfl)
      | exact Except.noConfusion h

theorem problemHandle_id (e : Env) (s : SystemState) (m resp : Msg)
    (s' : SystemState) (e' : Env)
    (h : ProblemAgent.handleMessage e s m = .ok (resp, s', e')) : resp.id = m.id := by
  simp only [ProblemAgent.handleMessage, ProblemAgent.requestProblem,
    ProblemAgent.suggestProblems, ProblemAgent.provideProblem,
    ProblemAgent.filterProblems] at h
  repeat' (split at h)
  all_goals
    first
      | (simp only [Except.ok.injEq, Prod.mk.injEq] at h
         obtain ⟨h1, -⟩ := h
         rw [← h1]
         rfl)
      | exact Except.noConfusion h

theorem evaluationHandle_id (e : Env) (s : SystemState) (m resp : Msg)
    (s' : SystemState) (e' : Env)
    (h : EvaluationAgent.handleMessage e s m = .ok (resp, s', e')) : resp.id = m.id := by
  simp only [EvaluationAgent.handleMessage, EvaluationAgent.evaluateCodeHandler,
    EvaluationAgent.provideFeedback, EvaluationAgent.suggestImprovements] at h
  repeat' (split at h)
  all_goals
    first
      | (simp only [Except.ok.injEq, Prod.mk.injEq] at h
         obtain ⟨h1, -⟩ := h
         rw [← h1]
         rfl)
      | exact Except.noConfusion h

theorem hintHandle_id (e : Env) (s : SystemState) (m resp : Msg)
    (s' : SystemState) (e' : Env)
    (h : HintAgent.handleMessage e s m = .ok (resp, s', e')) : resp.id = m.id := by
  simp only [HintAgent.handleMessage, HintAgent.generateHint,
    HintAgent.storeHint] at h
  repeat' (split at h)
  all_goals
    first
      | (simp only [Except.ok.injEq, Prod.mk.injEq] at h
         obtain ⟨h1, -⟩ := h
         rw [← h1]
         rfl)
      | exact Except.noConfusion h

theorem studyPlanHandle_id (e : Env) (s : SystemState) (m resp : Msg)
    (s' : SystemState) (e' : Env)
    (h : StudyPlanAgent.handleMessage e s m = .ok (resp, s', e')) : resp.id = m.id := by
  simp only [StudyPlanAgent.handleMessage, StudyPlanAgent.analyzePerformance,
    StudyPlanAgent.generateStudyPlan, StudyPlanAgent.updateStudyPlan] at h
  repeat' (split at h)
  all_goals
    first
      | (simp only [Except.ok.injEq, Prod.mk.injEq] at h
         obtain ⟨h1, -⟩ := h
         rw [← h1]
         rfl)
      | exact Except.noConfusion h

theorem historyHandle_id (e : Env) (s : SystemState) (m resp : Msg)
    (s' : SystemState) (e' : Env)
    (h : HistoryAgent.handleMessage e s m = .ok (resp, s', e')) : resp.id = m.id := by
  simp only [HistoryAgent.handleMessage, HistoryAgent.fetchHistory,
    HistoryAgent.saveHistory, HistoryAgent.analyzeHistory] at h
  repeat' (split at h)
  all_goals
    first
      | (simp only [Except.ok.injEq, Prod.mk.injEq] at h
         obtain ⟨h1, -⟩ := h
         rw [← h1]
         rfl)
      | exact Except.noConfusion h

/-- Any handler result of any role keeps the request's id. -/
theorem roleHandler_id (r : Role) (e : Env) (s : SystemState) (m resp : Msg)
    (s' : SystemState) (e' : Env)
    (h : roleHandler r e s m = .ok (resp, s', e')) : resp.id = m.id := by
  cases r with
  | session => exact sessionHandle_id e s m resp s' e' h
  | problem => exact problemHandle_id e s m resp s' e' h
  | evaluation => exact evaluationHandle_id e s m resp s' e' h
  | hint => exact hintHandle_id e s m resp s' e' h
  | studyPlan => exact studyPlanHandle_id e s m resp s' e' h
  | history => exact historyHandle_id e s m resp s' e' h

/-- The worker's response — success or error-typed — carries the id of
the incoming message whenever that id is truthy. -/
theorem workerOnMessage_id (r : Role) (e : Env) (s : SystemState) (m : Msg)
    (k : String) (hk : m.id = some k) (hke : k ≠ "") :
    (workerOnMessage r e s m).1.id = some k := by
  unfold workerOnMessage baseOnMessage
  cases hr : (if strFalsy m.type then Except.error "Invalid message format"
      else roleHandler r e s m : Except String (Msg × SystemState × Env)) with
  | ok v =>
    simp only [hr]
    have hh : roleHandler r e s m = .ok v := by
      by_cases ht : strFalsy m.type
      · rw [if_pos ht] at hr
        exact Except.noConfusion hr
      · rwa [if_neg ht] at hr
    have := roleHandler_id r e s m v.1 v.2.1 v.2.2 (by rw [hh])
    rw [this, hk]
  | error err =>
    simp only [hr]
    show some ((jsOrFresh m.id e).1) = some k
    rw [hk, jsOrFresh]
    simp [strFalsy, hke, jsOr]

/-- A matched response resolves exactly the registered caller and clears
the entry. -/
theorem handleWorkerMessage_resolves (ds : DispatchState) (caller : Nat)
    (mid : String) (resp : Msg) (hid : resp.id = some mid) :
    handleWorkerMessage ⟨aset mid caller ds.active⟩ resp =
      (⟨aerase mid (aset mid caller ds.active)⟩, some (caller, .resolved resp)) := by
  simp only [handleWorkerMessage, hid, alookup_aset_self]

/-- C1: for every request sent through the dispatcher's `sendMessage` —
the dispatcher assigning a fresh id before forwarding when the message
carries none — the worker's emitted response, whether a success response
or an error-typed response, carries exactly the forwarded request's id;
`handleWorkerMessage` therefore completes precisely this caller's
pending future with that response and removes the entry; and when the
request already carried a (truthy) id, the response id equals the
request's own id. -/
theorem dispatch_response_id (r : Role) (ds : DispatchState) (caller : Nat)
    (e : Env) (s : SystemState) (m : Msg) :
    (workerOnMessage r (sendMessage ds caller e m).2 s
        (sendMessage ds caller e m).1.forwarded).1.id =
      some (sendMessage ds caller e m).1.mid ∧
    handleWorkerMessage (sendMessage ds caller e m).1.state
        (workerOnMessage r (sendMessage ds caller e m).2 s
          (sendMessage ds caller e m).1.forwarded).1 =
      (⟨aerase (sendMessage ds caller e m).1.mid
          (sendMessage ds caller e m).1.state.active⟩,
       some (caller, .resolved (workerOnMessage r (sendMessage ds caller e m).2 s
          (sendMessage ds caller e m).1.forwarded).1)) ∧
    (strFalsy m.id = false → some (sendMessage ds caller e m).1.mid = m.id) := by
  have hmid : (sendMessage ds caller e m).1.mid = (jsOrFresh m.id e).1 := rfl
  have hne : (sendMessage ds caller e m).1.mid ≠ "" := by
    rw [hmid]
    exact jsOrFresh_ne_empty m.id e
  have hfwd : (sendMessage ds caller e m).1.forwarded.id =
      some ((sendMessage ds caller e m).1.mid) := rfl
  have h1 := workerOnMessage_id r (sendMessage ds caller e m).2 s
    (sendMessage ds caller e m).1.forwarded _ hfwd hne
  refine ⟨h1, ?_, ?_⟩
  · exact handleWorkerMessage_resolves ds caller _ _ h1
  · intro hfal
    rw [hmid, jsOrFresh, hfal]
    simpa using jsOr_of_not_falsy m.id "" hfal

/-- Witness for `dispatch_response_id` at a concrete id-carrying
request. -/
theorem dispatch_response_id_witness :
    ((workerOnMessage .hint
        (sendMessage ⟨[]⟩ 3 env0
          ⟨some "m1", some "provide", .hintResp ⟨"h1", "t", 1, "c", "s"⟩⟩).2 sys0
        (sendMessage ⟨[]⟩ 3 env0
          ⟨some "m1", some "provide", .hintResp ⟨"h1", "t", 1, "c", "s"⟩⟩).1.forwarded).1.id =
      some (sendMessage ⟨[]⟩ 3 env0
        ⟨some "m1", some "provide", .hintResp ⟨"h1", "t", 1, "c", "s"⟩⟩).1.mid) ∧
    (strFalsy (some "m1" : Option String) = false) ∧
    (some (sendMessage ⟨[]⟩ 3 env0
        ⟨some "m1", some "provide", .hintResp ⟨"h1", "t", 1, "c", "s"⟩⟩).1.mid =
      some "m1") :=
  ⟨(dispatch_response_id .hint ⟨[]⟩ 3 env0 sys0
      ⟨some "m1", some "provide", .hintResp ⟨"h1", "t", 1, "c", "s"⟩⟩).1,
   by decide,
   (dispatch_response_id .hint ⟨[]⟩ 3 env0 sys0
      ⟨some "m1", some "provide", .hintResp ⟨"h1", "t", 1, "c", "s"⟩⟩).2.2
     (by decide)⟩

/-- Counterexample to C2 as stated: a request with no `type` field sent
through `sendMessage` yields an error-typed response, and the dispatcher
RESOLVES the caller's future with it — the future is completed by
resolution carrying the error payload, not by rejection. -/
theorem noType_rejected_cex :
    (handleWorkerMessage
        (sendMessage ⟨[]⟩ 7 env0 ⟨none, none, .empty⟩).1.state
        (workerOnMessage .session
          (sendMessage ⟨[]⟩ 7 env0 ⟨none, none, .empty⟩).2 sys0
          (sendMessage ⟨[]⟩ 7 env0 ⟨none, none, .empty⟩).1.forwarded).1).2 =
      some (7, .resolved ⟨some "uuid-0", some "error",
        .error "Invalid message format" (some "uuid-0") none .empty⟩) ∧
    ((handleWorkerMessage
        (sendMessage ⟨[]⟩ 7 env0 ⟨none, none, .empty⟩).1.state
        (workerOnMessage .session
          (sendMessage ⟨[]⟩ 7 env0 ⟨none, none, .empty⟩).2 sys0
          (sendMessage ⟨[]⟩ 7 env0 ⟨none, none, .empty⟩).1.forwarded).1).2.map
      (fun p => Outcome.isRejected p.2)) = some false :=
  ⟨rfl, rfl⟩

/-- C2 (amended): a request with no (truthy) `type` sent through the
dispatcher never hangs: the actor answers an error-typed response
carrying the request's (possibly dispatcher-assigned) id, and the
dispatcher COMPLETES the caller's future by RESOLVING it with that
error-typed response and removing the pending entry —
`handleWorkerMessage` resolves every matched response,
application-level error responses included, rather than rejecting. -/
theorem noType_resolved_with_error (r : Role) (ds : DispatchState) (caller : Nat)
    (e : Env) (s : SystemState) (m : Msg) (ht : strFalsy m.type = true) :
    ∃ resp : Msg,
      (workerOnMessage r (sendMessage ds caller e m).2 s
        (sendMessage ds caller e m).1.forwarded).1 = resp ∧
      resp.type = some "error" ∧
      resp.id = some (sendMessage ds caller e m).1.mid ∧
      handleWorkerMessage (sendMessage ds caller e m).1.state resp =
        (⟨aerase (sendMessage ds caller e m).1.mid
            (sendMessage ds caller e m).1.state.active⟩,
         some (caller, .resolved resp)) := by
  have hne : (sendMessage ds caller e m).1.mid ≠ "" :=
    jsOrFresh_ne_empty m.id e
  have htf : strFalsy (sendMessage ds caller e m).1.forwarded.type = true := ht
  have hjs : jsOrFresh (some ((sendMessage ds caller e m).1.mid))
      (sendMessage ds caller e m).2 =
      ((sendMessage ds caller e m).1.mid, (sendMessage ds caller e m).2) := by
    rw [jsOrFresh]
    simp [strFalsy, hne, jsOr]
  have hrun : (workerOnMessage r (sendMessage ds caller e m).2 s
      (sendMessage ds caller e m).1.forwarded).1 =
      ⟨some ((sendMessage ds caller e m).1.mid), some "error",
       .error "Invalid message format" (some ((sendMessage ds caller e m).1.mid))
         m.type m.payload⟩ := by
    simp only [workerOnMessage, baseOnMessage, htf, if_true]
    simp only [show (sendMessage ds caller e m).1.forwarded.id =
      some ((sendMessage ds caller e m).1.mid) from rfl, hjs]
    rfl
  refine ⟨_, rfl, ?_, ?_, ?_⟩
  · rw [hrun]
  · rw [hrun]
  · have hid : (workerOnMessage r (sendMessage ds caller e m).2 s
        (sendMessage ds caller e m).1.forwarded).1.id =
        some ((sendMessage ds caller e m).1.mid) := by rw [hrun]
    exact handleWorkerMessage_resolves ds caller _ _ hid

/-- Witness for `noType_resolved_with_error` at a concrete type-less
request. -/
theorem noType_resolved_with_error_witness :
    (strFalsy (none : Option String) = true) ∧
    (∃ resp : Msg,
      (workerOnMessage .evaluation
        (sendMessage ⟨[]⟩ 9 env0 ⟨some "q1", none, .empty⟩).2 sys0
        (sendMessage ⟨[]⟩ 9 env0 ⟨some "q1", none, .empty⟩).1.forwarded).1 = resp ∧
      resp.type = some "error" ∧
      resp.id = some (sendMessage ⟨[]⟩ 9 env0 ⟨some "q1", none, .empty⟩).1.mid ∧
      handleWorkerMessage
          (sendMessage ⟨[]⟩ 9 env0 ⟨some "q1", none, .empty⟩).1.state resp =
        (⟨aerase (sendMessage ⟨[]⟩ 9 env0 ⟨some "q1", none, .empty⟩).1.mid
            (sendMessage ⟨[]⟩ 9 env0 ⟨some "q1", none, .empty⟩).1.state.active⟩,
         some (9, .resolved resp))) :=
  ⟨by decide,
    noType_resolved_with_error .evaluation ⟨[]⟩ 9 env0 sys0
      ⟨some "q1", none, .empty⟩ (by decide)⟩

/-- C3: `sendMessage` arms its timer for `now + 30000` milliseconds;
when the timer fires with the request still pending, the completion is
rejected with the timeout error and removed from the pending table; a
response arriving after that removal — or any response whose id matches
no pending request — resolves or rejects no caller's future: it is
discarded and the table is unchanged. -/
theorem timeout_rejects_then_discards (ds : DispatchState) (mid : String) (c : Nat)
    (h : alookup mid ds.active = some c) :
    fireTimeout ds mid =
      (⟨aerase mid ds.active⟩,
       some (c, .rejected ("Request timed out for message " ++ mid))) ∧
    (∀ m : Msg, m.id = some mid →
      handleWorkerMessage ⟨aerase mid ds.active⟩ m =
        (⟨aerase mid ds.active⟩, none)) ∧
    (∀ (ds2 : DispatchState) (m : Msg) (k : String), m.id = some k →
      alookup k ds2.active = none → handleWorkerMessage ds2 m = (ds2, none)) ∧
    (∀ (caller : Nat) (e : Env) (m : Msg),
      (sendMessage ds caller e m).1.timerAt = e.now + 30000) := by
  refine ⟨?_, ?_, ?_, fun caller e m => rfl⟩
  · simp only [fireTimeout, h]
  · intro m hm
    simp only [handleWorkerMessage, hm, alookup_aerase_self]
  · intro ds2 m k hm hk
    simp only [handleWorkerMessage, hm, hk]

/-- Witness for `timeout_rejects_then_discards` at a concrete pending
table. -/
theorem timeout_rejects_then_discards_witness :
    (alookup "m7" ([("m7", 5)] : List (String × Nat)) = some 5) ∧
    (fireTimeout ⟨[("m7", 5)]⟩ "m7" =
      (⟨aerase "m7" [("m7", 5)]⟩,
       some (5, .rejected ("Request timed out for message " ++ "m7"))) ∧
    (∀ m : Msg, m.id = some "m7" →
      handleWorkerMessage ⟨aerase "m7" [("m7", 5)]⟩ m =
        (⟨aerase "m7" [("m7", 5)]⟩, none)) ∧
    (∀ (ds2 : DispatchState) (m : Msg) (k : String), m.id = some k →
      alookup k ds2.active = none → handleWorkerMessage ds2 m = (ds2, none)) ∧
    (∀ (caller : Nat) (e : Env) (m : Msg),
      (sendMessage ⟨[("m7", 5)]⟩ caller e m).1.timerAt = e.now + 30000)) :=
  ⟨by decide, timeout_rejects_then_discards ⟨[("m7", 5)]⟩ "m7" 5 (by decide)⟩

end TutorSpark

